import Mathlib

/-! Subscription service: request validation and query building.

A shallow embedding of the request layer (`internal/handler/subscription.go`,
`internal/handler/handler.go`), the service layer
(`internal/service/subscription.go`), the persistence layer
(`internal/repository/subscription_postgres.go`) and the data model
(`internal/models/models.go`) of the subscription service, together with the
library calls they rely on (`time.Parse`, `time.Time`, `strconv.Atoi`,
`fmt.Errorf`, the `squirrel` query builder and the SQL statements it produces).

Conventions.
* A Go `string` is a Lean `String`; every byte test performed by the code
  (`'0' <= c && c <= '9'`, `c == '-'`) only succeeds on ASCII bytes, for which
  bytes and characters coincide.
* A Go `int`/`int64` is an `Int`; where the code does arithmetic the result is
  wrapped to 64 bits explicitly (`wrapInt64`, `toUint64`).
* A Go `error` is the `String` of its message; a fallible function returns
  `Except String _` (or `Option _` when the caller discards the error value).
-/

set_option linter.unusedVariables false

/-! ## Library: `time` -/

namespace GoTime

/-- An instant of `time.Time`: `sec` seconds and `nsec` nanoseconds after
January 1, year 1, 00:00:00 UTC (what `Time.sec()` and `Time.nsec()` return).
All times of the service are in UTC and carry no monotonic reading. -/
structure Time where
  sec : Int
  nsec : Int
deriving DecidableEq, Repr

/-- The zero value `time.Time{}`. -/
def Time.zero : Time := ⟨0, 0⟩

instance : Inhabited Time := ⟨Time.zero⟩

/-- `func (t Time) IsZero() bool { return t.sec() == 0 && t.nsec() == 0 }` -/
def Time.IsZero (t : Time) : Bool :=
  t.sec == 0 && t.nsec == 0

/-- `func (t Time) Before(u Time) bool`, without monotonic readings:
`ts < us || ts == us && t.nsec() < u.nsec()`. -/
def Time.Before (t u : Time) : Bool :=
  decide (t.sec < u.sec) || (t.sec == u.sec && decide (t.nsec < u.nsec))

/-- `func isLeap(year int) bool` -/
def isLeap (year : Int) : Bool :=
  year % 4 == 0 && (year % 100 != 0 || year % 400 == 0)

/-- The table `daysBefore`: `daysBefore m` counts the days of a non-leap year
before month `m + 1`. -/
def daysBefore (m : Int) : Int :=
  match m with
  | 0 => 0
  | 1 => 31
  | 2 => 59
  | 3 => 90
  | 4 => 120
  | 5 => 151
  | 6 => 181
  | 7 => 212
  | 8 => 243
  | 9 => 273
  | 10 => 304
  | 11 => 334
  | _ => 365

/-- `func daysIn(m Month, year int) int` -/
def daysIn (m : Int) (year : Int) : Int :=
  if m == 2 && isLeap year then 29
  else daysBefore m - daysBefore (m - 1)

/-- `func daysSinceEpoch(year int) uint64`, counted from year 1 (Go counts from
the absolute zero year, which is congruent to 1 modulo 400, and shifts the
result to year 1 afterwards): 400-year, 100-year and 4-year cycles, then the
remaining years. -/
def daysSinceEpoch (year : Int) : Int :=
  let y := year - 1
  let n400 := y / 400
  let y1 := y - 400 * n400
  let n100 := y1 / 100
  let y2 := y1 - 100 * n100
  let n4 := y2 / 4
  let y3 := y2 - 4 * n4
  146097 * n400 + 36524 * n100 + 1461 * n4 + 365 * y3

/-- `func norm(hi, lo, base int) (nhi, nlo int)`: carries `lo` into `hi` so
that `0 <= nlo < base`. -/
def norm (hi lo base : Int) : Int × Int :=
  let p1 : Int × Int :=
    if lo < 0 then
      let n := (-lo - 1) / base + 1
      (hi - n, lo + n * base)
    else (hi, lo)
  if p1.2 ≥ base then
    let n := p1.2 / base
    (p1.1 + n, p1.2 - n * base)
  else p1

/-- `func Date(year int, month Month, day, hour, min, sec, nsec int, loc)` for
`loc = UTC`. -/
def Date (year month day hour min sec nsec : Int) : Time :=
  let ym := norm year (month - 1) 12
  let year := ym.1
  let month := ym.2 + 1
  let sn := norm sec nsec 1000000000
  let ms := norm min sn.1 60
  let hm := norm hour ms.1 60
  let dh := norm day hm.1 24
  let d := daysSinceEpoch year + daysBefore (month - 1)
    + (if isLeap year && decide (month ≥ 3) then 1 else 0) + (dh.1 - 1)
  ⟨d * 86400 + (dh.2 * 3600 + hm.2 * 60 + ms.2), sn.2⟩

/-- The test `'0' <= c && c <= '9'` on one character (48 is `'0'`, 57 is `'9'`). -/
def isDigitChar (c : Char) : Bool :=
  decide (48 ≤ c.toNat) && decide (c.toNat ≤ 57)

/-- The value `c - '0'` of a digit. -/
def digitVal (c : Char) : Int :=
  (c.toNat : Int) - 48

/-- `func isDigit(s string, i int) bool`: false when `i` is out of range. -/
def isDigit (s : List Char) (i : Nat) : Bool :=
  match s.get? i with
  | none => false
  | some c => isDigitChar c

/-- `func getnum(s string, fixed bool) (int, string, error)`: one or two
(`fixed`: exactly two) leading digits and the rest of the string. -/
def getnum (s : List Char) (fixed : Bool) : Option (Int × List Char) :=
  if !isDigit s 0 then none
  else if !isDigit s 1 then
    if fixed then none
    else some (digitVal (s.getD 0 '0'), s.drop 1)
  else some (digitVal (s.getD 0 '0') * 10 + digitVal (s.getD 1 '0'), s.drop 2)

/-- `func skip(value, prefix string) (string, error)` for a literal without
spaces (the only literal of the layout is "-"): `value` must start with it. -/
def skip : List Char → List Char → Option (List Char)
  | value, [] => some value
  | [], _ :: _ => none
  | v :: value, p :: rest => if v ≠ p then none else skip value rest

/-- `func leadingInt(s) (x uint64, rem, err)`: the leading decimal digits of
`s` as a number (started from `x`) and what follows them; an error when the
number leaves the 63-bit range. -/
def leadingInt : List Char → Nat → Option (Nat × List Char)
  | [], x => some (x, [])
  | c :: rest, x =>
    if c.toNat < 48 || c.toNat > 57 then some (x, c :: rest)
    else if x > 2 ^ 63 / 10 then none
    else
      let x1 := x * 10 + (c.toNat - 48)
      if x1 > 2 ^ 63 then none else leadingInt rest x1

/-- `func atoi(s) (x int, err error)` of package `time`: an optional sign and
then digits only. -/
def atoi (s : List Char) : Option Int :=
  let neg := s.head? == some '-'
  let s1 := if s.head? == some '-' || s.head? == some '+' then s.drop 1 else s
  match leadingInt s1 0 with
  | none => none
  | some (q, rem) =>
    if rem.length > 0 then none
    else some (if neg then -(q : Int) else (q : Int))

/-- The call `time.Parse("01-2006", value)`; `none` stands for a non-nil error.
The layout has three chunks: the two-digit month (`stdZeroMonth`), the literal
"-" followed by the four-digit year (`stdLongYear`), and the end of the text.
The day is not in the layout and defaults to 1, the clock to 00:00:00 and the
location to UTC. -/
def ParseMonthYear (value : String) : Option Time :=
  match getnum value.toList true with
  | none => none
  | some (month, value1) =>
    if month ≤ 0 || 12 < month then none
    else
      match skip value1 ['-'] with
      | none => none
      | some value2 =>
        if value2.length < 4 || !isDigit value2 0 then none
        else
          match atoi (value2.take 4) with
          | none => none
          | some year =>
            if (value2.drop 4).length ≠ 0 then none
            else
              let day : Int := 1
              if day < 1 || day > daysIn month year then none
              else some (Date year month day 0 0 0 0)

end GoTime

/-! ## Library: `strconv` -/

namespace Strconv

/-- The decimal value of a string made of digits only, accumulated from `n`;
`none` when a character is not a digit. -/
def digitsValue : List Char → Nat → Option Nat
  | [], n => some n
  | c :: rest, n =>
    if GoTime.isDigitChar c then digitsValue rest (n * 10 + (c.toNat - 48)) else none

/-- `func Atoi(s string) (int, error)` on a 64-bit platform; `none` stands for
a non-nil error. The text is an optional sign `+` or `-` followed by at least
one decimal digit and nothing else (syntax error otherwise), and the value has
to fit a signed 64-bit integer (range error otherwise). The fast path for short
strings and the slow path through `ParseInt(s, 10, 0)` compute the same
function. -/
def Atoi (s : String) : Option Int :=
  let cs := s.toList
  let neg := cs.head? == some '-'
  let body := if cs.head? == some '-' || cs.head? == some '+' then cs.drop 1 else cs
  if body.length < 1 then none
  else
    match digitsValue body 0 with
    | none => none
    | some n =>
      let v : Int := if neg then -(n : Int) else (n : Int)
      if v < -(2 ^ 63) || v > 2 ^ 63 - 1 then none else some v

end Strconv

/-! ## `internal/models` -/

namespace Models

/-- A `uuid.UUID`: the 128-bit number spelled by its 16 bytes. -/
structure UUID where
  val : Nat
deriving DecidableEq, Repr

/-- The value `uuid.Nil`, all bytes zero. -/
def UUID.Nil : UUID := ⟨0⟩

instance : Inhabited UUID := ⟨UUID.Nil⟩

/-- `const SubscriptionTable = "subscription"` -/
def SubscriptionTable : String := "subscription"

/-- `type Subscription struct`; `EndDate` is a `*time.Time`, `none` is `nil`. -/
structure Subscription where
  ID : UUID
  ServiceName : String
  Price : Int
  UserID : UUID
  StartDate : GoTime.Time
  EndDate : Option GoTime.Time
deriving DecidableEq, Repr

/-- `type SubscriptionParams struct`; `UserID` is a `*uuid.UUID`. -/
structure SubscriptionParams where
  Page : Int
  Limit : Int
  UserID : Option UUID
  ServiceName : String
  StartDate : GoTime.Time
  EndDate : GoTime.Time
deriving DecidableEq, Repr

/-- The zero value `models.SubscriptionParams{}`. -/
def SubscriptionParams.zero : SubscriptionParams :=
  { Page := 0, Limit := 0, UserID := none, ServiceName := "",
    StartDate := GoTime.Time.zero, EndDate := GoTime.Time.zero }

end Models

/-! ## `internal/handler/subscription.go` -/

namespace Handler

open GoTime Models

/-- `type reqCreate struct` -/
structure reqCreate where
  ServiceName : String
  Price : Int
  UserID : UUID
  StartDate : String
  EndDate : String
deriving DecidableEq, Repr

/-- `func reqToSubscription(r reqCreate) (models.Subscription, error)` -/
def reqToSubscription (r : reqCreate) : Except String Subscription :=
  match ParseMonthYear r.StartDate with
  | none => .error "invalid start_date format, expected MM-YYYY"
  | some start =>
    if r.EndDate ≠ "" then
      match ParseMonthYear r.EndDate with
      | none => .error "invalid end_date format, expected MM-YYYY"
      | some parsedEnd =>
        if parsedEnd.Before start then .error "end_date must be after start_date"
        else .ok { ID := UUID.Nil, ServiceName := r.ServiceName, Price := r.Price,
                   UserID := r.UserID, StartDate := start, EndDate := some parsedEnd }
    else .ok { ID := UUID.Nil, ServiceName := r.ServiceName, Price := r.Price,
               UserID := r.UserID, StartDate := start, EndDate := none }

/-- `func validateCreate(r reqCreate) error`; `none` is the `nil` error. -/
def validateCreate (r : reqCreate) : Option String :=
  if r.ServiceName = "" then some "service_name is required"
  else if r.Price ≤ 0 then some "price must be positive"
  else if r.UserID = UUID.Nil then some "user_id is required"
  else if r.StartDate = "" then some "start_date is required"
  else none

/-- `type reqCost struct` -/
structure reqCost where
  UserID : Option UUID
  ServiceName : String
  StartDate : String
  EndDate : String
deriving DecidableEq, Repr

/-- `func reqToSubscriptionParams(r reqCost) (params models.SubscriptionParams, err error)`;
the named result `params` starts as the zero value and is filled field by field. -/
def reqToSubscriptionParams (r : reqCost) : Except String SubscriptionParams :=
  let params := SubscriptionParams.zero
  let afterStart : Except String SubscriptionParams :=
    if r.StartDate ≠ "" then
      match ParseMonthYear r.StartDate with
      | none => .error "invalid start_date format, expected MM-YYYY"
      | some start => .ok { params with StartDate := start }
    else .ok params
  match afterStart with
  | .error e => .error e
  | .ok params1 =>
    let afterEnd : Except String SubscriptionParams :=
      if r.EndDate ≠ "" then
        match ParseMonthYear r.EndDate with
        | none => .error "invalid end_date format, expected MM-YYYY"
        | some e => .ok { params1 with EndDate := e }
      else .ok params1
    match afterEnd with
    | .error e => .error e
    | .ok params2 => .ok { params2 with UserID := r.UserID, ServiceName := r.ServiceName }

/-- `func validateCost(params models.SubscriptionParams) error`; `none` is `nil`. -/
def validateCost (params : SubscriptionParams) : Option String :=
  if !params.StartDate.IsZero && !params.EndDate.IsZero
      && params.EndDate.Before params.StartDate then
    some "end_date must be after start_date"
  else none

/-- The two steps of `getCost` between decoding the body and calling the
service: `reqToSubscriptionParams`, then `validateCost`; the error of the
first failing step, or the params handed to the service. -/
def costParams (r : reqCost) : Except String SubscriptionParams :=
  match reqToSubscriptionParams r with
  | .error e => .error e
  | .ok params =>
    match validateCost params with
    | some e => .error e
    | none => .ok params

/-- The service interface the handlers call (`service.Subscription`). -/
structure Services where
  Create : Subscription → Except String UUID
  Get : SubscriptionParams → Except String (List Subscription)
  Delete : UUID → Except String Unit
  Update : UUID → Subscription → Except String Unit
  GetCost : SubscriptionParams → Except String Int

/-- A call a handler makes to the service. -/
inductive Call where
  | Create (s : Subscription)
  | Get (p : SubscriptionParams)
  | Delete (id : UUID)
  | Update (id : UUID) (s : Subscription)
  | GetCost (p : SubscriptionParams)
deriving DecidableEq, Repr

/-- The JSON body a handler writes. -/
inductive Body where
  | error (msg : String)
  | ok
  | uuid (id : UUID)
  | subscriptions (subs : List Subscription)
  | cost (c : Int)
deriving DecidableEq, Repr

/-- What a handler does: the HTTP status and body it writes, and the calls it
made to the service, in order. -/
structure Outcome where
  status : Nat
  body : Body
  calls : List Call
deriving DecidableEq, Repr

/-- Modelled from the spec: `newErrorResponse(c, status, msg)`, whose
definition is not among the sources. By the spec (external interfaces) an
error response carries the given status and the body `{error: msg}`; writing
it calls no service. -/
def newErrorResponse (status : Nat) (msg : String) : Outcome :=
  { status := status, body := .error msg, calls := [] }

/-- The page and limit of `getSubscriptions` (lines 143-156): the defaults 1
and 10, each replaced when its path parameter is non-empty, parses with
`strconv.Atoi` and is in range. -/
def parsePageLimit (pageStr limitStr : String) : Int × Int :=
  let page : Int :=
    if pageStr ≠ "" then
      match Strconv.Atoi pageStr with
      | some p => if p > 0 then p else 1
      | none => 1
    else 1
  let limit : Int :=
    if limitStr ≠ "" then
      match Strconv.Atoi limitStr with
      | some l => if l > 0 && l ≤ 100 then l else 10
      | none => 10
    else 10
  (page, limit)

/-- `func (h *Handler) getSubscriptions(c *gin.Context)`, given the path
parameters `user_id`, `page` and `limit` (empty when the route has none) and
the library function `uuid.Parse`. -/
def getSubscriptions (services : Services) (uuidParse : String → Option UUID)
    (userIDStr pageStr limitStr : String) : Outcome :=
  if userIDStr = "" then newErrorResponse 400 "user_id is required"
  else
    match uuidParse userIDStr with
    | none => newErrorResponse 400 "invalid user_id format"
    | some userID =>
      let pl := parsePageLimit pageStr limitStr
      let params : SubscriptionParams :=
        { Page := pl.1, Limit := pl.2, UserID := some userID, ServiceName := "",
          StartDate := Time.zero, EndDate := Time.zero }
      match services.Get params with
      | .error e =>
        { status := 500, body := .error "internal server error", calls := [.Get params] }
      | .ok subscriptions =>
        { status := 200, body := .subscriptions subscriptions, calls := [.Get params] }

end Handler

/-! ## Library: `squirrel`, the SQL builder -/

namespace Squirrel

open GoTime Models

/-- A value bound to a placeholder. A `uuid.UUID` reaches the driver through
its `Value()` method, an injective rendering, and is kept as the UUID. -/
inductive Arg where
  | text (s : String)
  | int (i : Int)
  | time (t : Time)
  | uuid (u : UUID)
  | null
deriving DecidableEq, Repr

/-- A predicate given to `Where`: `squirrel.Eq`, `squirrel.GtOrEq` or
`squirrel.LtOrEq` with one key. -/
inductive Sqlizer where
  | Eq (column : String) (val : Arg)
  | GtOrEq (column : String) (val : Arg)
  | LtOrEq (column : String) (val : Arg)
deriving DecidableEq, Repr

/-- `ToSql()` of a predicate: its text with `?` for the value, and the value.
`Eq` with a nil value tests `IS NULL`; the comparisons refuse a nil value. -/
def Sqlizer.ToSql : Sqlizer → Except String (String × List Arg)
  | .Eq column .null => .ok (column ++ " IS NULL", [])
  | .Eq column val => .ok (column ++ " = ?", [val])
  | .GtOrEq column .null =>
    .error "cannot use null with less than or greater than operators"
  | .GtOrEq column val => .ok (column ++ " >= ?", [val])
  | .LtOrEq column .null =>
    .error "cannot use null with less than or greater than operators"
  | .LtOrEq column val => .ok (column ++ " <= ?", [val])

/-- `squirrel.PlaceholderFormat`: `Question` (the default) or `Dollar`. -/
inductive PlaceholderFormat where
  | Question
  | Dollar
deriving DecidableEq, Repr

/-- The data behind a `squirrel.SelectBuilder` (`selectData`), with the fields
the repository sets. `Limit` and `Offset` hold the number that squirrel keeps as
its decimal text (`fmt.Sprintf("%d", n)`, never empty); `none` is the empty
text of a builder on which `Limit`/`Offset` was not called. -/
structure SelectBuilder where
  PlaceholderFormat : PlaceholderFormat
  Columns : List String
  From : Option String
  WhereParts : List Sqlizer
  Limit : Option Nat
  Offset : Option Nat
deriving DecidableEq, Repr

/-- `squirrel.Select(columns...)` -/
def Select (columns : List String) : SelectBuilder :=
  { PlaceholderFormat := .Question, Columns := columns, From := none,
    WhereParts := [], Limit := none, Offset := none }

/-- `func (b SelectBuilder) From(from string) SelectBuilder` -/
def SelectBuilder.from_ (b : SelectBuilder) (table : String) : SelectBuilder :=
  { b with From := some table }

/-- `func (b SelectBuilder) Where(pred interface{}, args ...interface{}) SelectBuilder` -/
def SelectBuilder.Where (b : SelectBuilder) (pred : Sqlizer) : SelectBuilder :=
  { b with WhereParts := b.WhereParts ++ [pred] }

/-- `func (b SelectBuilder) Limit(limit uint64) SelectBuilder` -/
def SelectBuilder.setLimit (b : SelectBuilder) (limit : Nat) : SelectBuilder :=
  { b with Limit := some limit }

/-- `func (b SelectBuilder) Offset(offset uint64) SelectBuilder` -/
def SelectBuilder.setOffset (b : SelectBuilder) (offset : Nat) : SelectBuilder :=
  { b with Offset := some offset }

/-- `func (b SelectBuilder) PlaceholderFormat(f PlaceholderFormat) SelectBuilder` -/
def SelectBuilder.setPlaceholderFormat (b : SelectBuilder) (f : Squirrel.PlaceholderFormat) :
    SelectBuilder :=
  { b with PlaceholderFormat := f }

/-- `func appendToSql(parts []Sqlizer, w io.Writer, sep string, args)`: the
texts of the parts joined by `sep`, and their arguments in order. -/
def appendToSql : List Sqlizer → String → Except String (String × List Arg)
  | [], _ => .ok ("", [])
  | [p], _ => p.ToSql
  | p :: q :: rest, sep =>
    match p.ToSql with
    | .error e => .error e
    | .ok (s, a) =>
      match appendToSql (q :: rest) sep with
      | .error e => .error e
      | .ok (s1, a1) => .ok (s ++ sep ++ s1, a ++ a1)

/-- The decimal text of an unsigned number, `fmt.Sprintf("%d", n)`. -/
def formatUint (n : Nat) : String := Nat.repr n

/-- `func replacePositionalPlaceholders(sql, prefix string)` with the dollar
sign: from left to right each `?` becomes `$1`, `$2`, ... (`i` placeholders
were numbered before), and the escape `??` becomes one `?`. -/
def replacePositionalPlaceholders : List Char → Nat → List Char
  | [], _ => []
  | [c], i => if c = '?' then '$' :: (formatUint (i + 1)).toList else [c]
  | c :: d :: rest, i =>
    if c = '?' then
      if d = '?' then '?' :: replacePositionalPlaceholders rest i
      else ('$' :: (formatUint (i + 1)).toList) ++ replacePositionalPlaceholders (d :: rest) (i + 1)
    else c :: replacePositionalPlaceholders (d :: rest) i

/-- `ReplacePlaceholders(sql)` of a placeholder format. -/
def PlaceholderFormat.ReplacePlaceholders (f : PlaceholderFormat) (sql : String) : String :=
  match f with
  | .Question => sql
  | .Dollar => String.mk (replacePositionalPlaceholders sql.toList 0)

/-- `func (d *selectData) toSqlRaw()`: SELECT, the columns, FROM, WHERE with
the parts joined by AND, LIMIT and OFFSET, each clause only when set. -/
def SelectBuilder.toSqlRaw (d : SelectBuilder) : Except String (String × List Arg) :=
  if d.Columns.length = 0 then
    .error "select statements must have at least one result column"
  else
    let sql := "SELECT " ++ ", ".intercalate d.Columns
    let sql1 := match d.From with
      | some table => sql ++ " FROM " ++ table
      | none => sql
    let whereRes : Except String (String × List Arg) :=
      if d.WhereParts.length > 0 then
        match appendToSql d.WhereParts " AND " with
        | .error e => .error e
        | .ok (s, a) => .ok (sql1 ++ " WHERE " ++ s, a)
      else .ok (sql1, [])
    match whereRes with
    | .error e => .error e
    | .ok (sql2, args) =>
      let sql3 := match d.Limit with
        | some n => sql2 ++ " LIMIT " ++ formatUint n
        | none => sql2
      let sql4 := match d.Offset with
        | some n => sql3 ++ " OFFSET " ++ formatUint n
        | none => sql3
      .ok (sql4, args)

/-- `func (b SelectBuilder) ToSql() (string, []interface{}, error)` -/
def SelectBuilder.ToSql (b : SelectBuilder) : Except String (String × List Arg) :=
  match b.toSqlRaw with
  | .error e => .error e
  | .ok (sql, args) => .ok (b.PlaceholderFormat.ReplacePlaceholders sql, args)

end Squirrel

/-! ## `internal/repository/subscription_postgres.go` -/

namespace Repository

open GoTime Models Squirrel

/-- The value a 64-bit signed Go `int` holds after an arithmetic result `x`:
`x` wrapped into `[-2^63, 2^63)`. -/
def wrapInt64 (x : Int) : Int :=
  (x + 2 ^ 63) % 2 ^ 64 - 2 ^ 63

/-- The conversion `uint64(x)` of a Go `int`. -/
def toUint64 (x : Int) : Nat :=
  (x % 2 ^ 64).toNat

/-- Whether `x` is a value of a Go `int64`. -/
def isInt64 (x : Int) : Prop :=
  -(2 ^ 63) ≤ x ∧ x ≤ 2 ^ 63 - 1

instance (x : Int) : Decidable (isInt64 x) := by
  unfold isInt64; exact inferInstance

/-- The local `offset := (params.Page - 1) * params.Limit` of `Get`, in Go
`int` arithmetic. -/
def getOffset (params : SubscriptionParams) : Int :=
  wrapInt64 (wrapInt64 (params.Page - 1) * params.Limit)

/-- The query `SubscriptionPostgres.Get` builds (lines 73-91). -/
def getQuery (params : SubscriptionParams) : SelectBuilder :=
  let query := (Select ["id", "service_name", "price", "user_id", "start_date",
    "end_date"]).from_ SubscriptionTable
  let query1 := match params.UserID with
    | some userID => query.Where (.Eq "user_id" (.uuid userID))
    | none => query
  let query2 := if params.Limit > 0 then query1.setLimit (toUint64 params.Limit) else query1
  let query3 :=
    if params.Page > 0 && params.Limit > 0 then
      query2.setOffset (toUint64 (getOffset params))
    else query2
  query3.setPlaceholderFormat .Dollar

/-- The query `SubscriptionPostgres.GetCost` builds (lines 194-210). -/
def getCostQuery (params : SubscriptionParams) : SelectBuilder :=
  let query := ((Select ["COALESCE(SUM(price), 0)"]).from_
    SubscriptionTable).setPlaceholderFormat .Dollar
  let query1 := if !params.StartDate.IsZero then
      query.Where (.GtOrEq "start_date" (.time params.StartDate))
    else query
  let query2 := if !params.EndDate.IsZero then
      query1.Where (.LtOrEq "end_date" (.time params.EndDate))
    else query1
  let query3 := match params.UserID with
    | some userID => query2.Where (.Eq "user_id" (.uuid userID))
    | none => query2
  let query4 := if params.ServiceName ≠ "" then
      query3.Where (.Eq "service_name" (.text params.ServiceName))
    else query3
  query4

/-- The store: the rows of table `subscription`, in the order the store
returns them. -/
structure DB where
  rows : List Subscription
deriving DecidableEq, Repr

/-- The value of a column of a row; `none` for a name that is not a column of
the table (`end_date` of a row without end date is the SQL `NULL`). -/
def column (name : String) (r : Subscription) : Option Arg :=
  if name = "id" then some (.uuid r.ID)
  else if name = "service_name" then some (.text r.ServiceName)
  else if name = "price" then some (.int r.Price)
  else if name = "user_id" then some (.uuid r.UserID)
  else if name = "start_date" then some (.time r.StartDate)
  else if name = "end_date" then
    match r.EndDate with
    | some e => some (.time e)
    | none => some .null
  else none

/-- The SQL comparison `a <= b` of two values: defined on two numbers and on
two instants, unknown (and so not selecting the row) otherwise, in particular
when one side is `NULL`. -/
def Arg.le (a b : Arg) : Bool :=
  match a, b with
  | .int x, .int y => decide (x ≤ y)
  | .time x, .time y => !(y.Before x)
  | _, _ => false

/-- Whether the store selects row `r` under a WHERE part: `column = value`
(`IS NULL` for a nil value), `column >= value`, `column <= value`. A comparison
with `NULL` selects nothing. -/
def holds (w : Sqlizer) (r : Subscription) : Bool :=
  match w with
  | .Eq name val =>
    match column name r with
    | none => false
    | some v => if val = .null then v = .null else (v ≠ .null && v = val)
  | .GtOrEq name val =>
    match column name r with
    | none => false
    | some v => Arg.le val v
  | .LtOrEq name val =>
    match column name r with
    | none => false
    | some v => Arg.le v val

/-- The rows a SELECT returns: those every WHERE part selects, in table
order, without the first OFFSET and cut to at most LIMIT rows. -/
def DB.Query (db : DB) (q : SelectBuilder) : List Subscription :=
  let selected := db.rows.filter (fun r => q.WhereParts.all (fun w => holds w r))
  let skipped := match q.Offset with
    | some n => selected.drop n
    | none => selected
  match q.Limit with
  | some n => skipped.take n
  | none => skipped

/-- The single value `COALESCE(SUM(price), 0)` returns: the exact sum of the
prices of the selected rows, 0 when there is none. -/
def DB.QuerySum (db : DB) (q : SelectBuilder) : Int :=
  ((db.rows.filter (fun r => q.WhereParts.all (fun w => holds w r))).map
    (fun r => r.Price)).sum

/-- `Scan(&cost)` into an `int64`: the value when it fits, a conversion error
(its text abridged) otherwise. -/
def scanInt64 (v : Int) : Except String Int :=
  if isInt64 v then .ok v else .error "Scan error: value out of range"

/-- `func (r *SubscriptionPostgres) Get(params) ([]models.Subscription, error)`
over a store that answers every statement. -/
def Get (db : DB) (params : SubscriptionParams) : Except String (List Subscription) :=
  let query := getQuery params
  match query.ToSql with
  | .error e => .error ("SubscriptionPostgres Get() ошибка построения SQL-запроса: " ++ e)
  | .ok (sqlQuery, args) => .ok (db.Query query)

/-- `func (r *SubscriptionPostgres) GetCost(params) (int64, error)` over a
store that answers every statement. -/
def GetCost (db : DB) (params : SubscriptionParams) : Except String Int :=
  let query := getCostQuery params
  match query.ToSql with
  | .error e => .error ("SubscriptionPostgres GetCost() ошибка построения SQL-запроса: " ++ e)
  | .ok (sqlQuery, args) =>
    match scanInt64 (db.QuerySum query) with
    | .error e => .error ("SubscriptionPostgres GetCost() ошибка выполнения запроса: " ++ e)
    | .ok cost => .ok cost

end Repository

/-! ## Library: `squirrel`, UPDATE and DELETE statements -/

namespace Squirrel

/-- `setClause{column, value}`: one `Set(column, value)` of an update. -/
structure setClause where
  column : String
  value : Arg
deriving DecidableEq, Repr

/-- The data behind a `squirrel.UpdateBuilder` (`updateData`), with the fields
the repository sets. -/
structure UpdateBuilder where
  PlaceholderFormat : PlaceholderFormat
  Table : String
  SetClauses : List setClause
  WhereParts : List Sqlizer
deriving DecidableEq, Repr

/-- `squirrel.Update(table)` -/
def Update (table : String) : UpdateBuilder :=
  { PlaceholderFormat := .Question, Table := table, SetClauses := [], WhereParts := [] }

/-- `func (b UpdateBuilder) Set(column string, value interface{}) UpdateBuilder` -/
def UpdateBuilder.Set (b : UpdateBuilder) (column : String) (value : Arg) : UpdateBuilder :=
  { b with SetClauses := b.SetClauses ++ [{ column := column, value := value }] }

/-- `func (b UpdateBuilder) Where(pred interface{}, args ...interface{}) UpdateBuilder` -/
def UpdateBuilder.Where (b : UpdateBuilder) (pred : Sqlizer) : UpdateBuilder :=
  { b with WhereParts := b.WhereParts ++ [pred] }

/-- `func (b UpdateBuilder) PlaceholderFormat(f PlaceholderFormat) UpdateBuilder` -/
def UpdateBuilder.setPlaceholderFormat (b : UpdateBuilder) (f : Squirrel.PlaceholderFormat) :
    UpdateBuilder :=
  { b with PlaceholderFormat := f }

/-- `func (d *updateData) ToSql()`: UPDATE, the table, SET with one
`column = ?` per clause (a plain value, also nil, is bound to a placeholder),
then WHERE with the parts joined by AND; the placeholders are numbered last. -/
def UpdateBuilder.ToSql (d : UpdateBuilder) : Except String (String × List Arg) :=
  if d.Table = "" then .error "update statements must specify a table"
  else if d.SetClauses.length = 0 then
    .error "update statements must have at least one Set clause"
  else
    let setSqls := d.SetClauses.map (fun c => c.column ++ " = " ++ "?")
    let args := d.SetClauses.map (fun c => c.value)
    let sql := "UPDATE " ++ d.Table ++ " SET " ++ ", ".intercalate setSqls
    let whereRes : Except String (String × List Arg) :=
      if d.WhereParts.length > 0 then
        match appendToSql d.WhereParts " AND " with
        | .error e => .error e
        | .ok (s, a) => .ok (sql ++ " WHERE " ++ s, args ++ a)
      else .ok (sql, args)
    match whereRes with
    | .error e => .error e
    | .ok (sql1, args1) => .ok (d.PlaceholderFormat.ReplacePlaceholders sql1, args1)

/-- The data behind a `squirrel.DeleteBuilder` (`deleteData`). -/
structure DeleteBuilder where
  PlaceholderFormat : PlaceholderFormat
  From : String
  WhereParts : List Sqlizer
deriving DecidableEq, Repr

/-- `squirrel.Delete(from)` -/
def Delete (table : String) : DeleteBuilder :=
  { PlaceholderFormat := .Question, From := table, WhereParts := [] }

/-- `func (b DeleteBuilder) Where(pred interface{}, args ...interface{}) DeleteBuilder` -/
def DeleteBuilder.Where (b : DeleteBuilder) (pred : Sqlizer) : DeleteBuilder :=
  { b with WhereParts := b.WhereParts ++ [pred] }

/-- `func (b DeleteBuilder) PlaceholderFormat(f PlaceholderFormat) DeleteBuilder` -/
def DeleteBuilder.setPlaceholderFormat (b : DeleteBuilder) (f : Squirrel.PlaceholderFormat) :
    DeleteBuilder :=
  { b with PlaceholderFormat := f }

/-- `func (d *deleteData) ToSql()`: DELETE FROM, the table, then WHERE with
the parts joined by AND. -/
def DeleteBuilder.ToSql (d : DeleteBuilder) : Except String (String × List Arg) :=
  if d.From = "" then .error "delete statements must specify a From table"
  else
    let sql := "DELETE FROM " ++ d.From
    let whereRes : Except String (String × List Arg) :=
      if d.WhereParts.length > 0 then
        match appendToSql d.WhereParts " AND " with
        | .error e => .error e
        | .ok (s, a) => .ok (sql ++ " WHERE " ++ s, a)
      else .ok (sql, [])
    match whereRes with
    | .error e => .error e
    | .ok (sql1, args1) => .ok (d.PlaceholderFormat.ReplacePlaceholders sql1, args1)

end Squirrel

/-! ## `internal/repository/subscription_postgres.go`: Create, Delete, Update -/

namespace Models

/-- The lowest `width` hexadecimal digits of `n`, most significant first. -/
def hexDigits : Nat → Nat → List Char
  | 0, _ => []
  | width + 1, n => hexDigits width (n / 16) ++ [Nat.digitChar (n % 16)]

/-- `func (uuid UUID) String() string`: the 32 hexadecimal digits in the
groups 8-4-4-4-12. -/
def UUID.String (u : UUID) : String :=
  let h := hexDigits 32 u.val
  String.mk (h.take 8 ++ ['-'] ++ (h.drop 8).take 4 ++ ['-'] ++ (h.drop 12).take 4 ++ ['-']
    ++ (h.drop 16).take 4 ++ ['-'] ++ h.drop 20)

end Models

namespace Repository

open GoTime Models Squirrel

/-- The statement `SubscriptionPostgres.Update` builds (lines 156-169): four
`Set`, the `Where` on the id, the placeholder format, then the `Set` of
`end_date` to the end date or to nil. -/
def updateQuery (id : UUID) (subscription : Subscription) : UpdateBuilder :=
  let builder := ((((((Squirrel.Update SubscriptionTable).Set "service_name"
    (.text subscription.ServiceName)).Set "price" (.int subscription.Price)).Set "user_id"
    (.uuid subscription.UserID)).Set "start_date" (.time subscription.StartDate)).Where
    (.Eq "id" (.uuid id))).setPlaceholderFormat .Dollar
  match subscription.EndDate with
  | some e => builder.Set "end_date" (.time e)
  | none => builder.Set "end_date" .null

/-- The statement `SubscriptionPostgres.Delete` builds (lines 128-130). -/
def deleteQuery (id : UUID) : DeleteBuilder :=
  ((Squirrel.Delete SubscriptionTable).Where (.Eq "id" (.uuid id))).setPlaceholderFormat .Dollar

/-- The columns `SubscriptionPostgres.Create` names in its INSERT (lines 32-39). -/
def createColumns : List String :=
  ["id", "service_name", "price", "user_id", "start_date", "end_date"]

/-- The values `SubscriptionPostgres.Create` inserts (lines 42-55), `id` being
the identifier `uuid.New()` returned. -/
def createValues (id : UUID) (subscription : Subscription) : List Arg :=
  let values : List Arg :=
    [.uuid id, .text subscription.ServiceName, .int subscription.Price,
     .uuid subscription.UserID, .time subscription.StartDate]
  match subscription.EndDate with
  | some e => values ++ [.time e]
  | none => values ++ [.null]

/-- The row after the store assigns `value` to `column`; `none` when the
column does not exist or cannot hold the value (only `end_date` takes `NULL`). -/
def assign (c : setClause) (r : Subscription) : Option Subscription :=
  if c.column = "id" then
    match c.value with
    | .uuid u => some { r with ID := u }
    | _ => none
  else if c.column = "service_name" then
    match c.value with
    | .text s => some { r with ServiceName := s }
    | _ => none
  else if c.column = "price" then
    match c.value with
    | .int i => some { r with Price := i }
    | _ => none
  else if c.column = "user_id" then
    match c.value with
    | .uuid u => some { r with UserID := u }
    | _ => none
  else if c.column = "start_date" then
    match c.value with
    | .time t => some { r with StartDate := t }
    | _ => none
  else if c.column = "end_date" then
    match c.value with
    | .time t => some { r with EndDate := some t }
    | .null => some { r with EndDate := none }
    | _ => none
  else none

/-- The row after a list of assignments, applied in order. -/
def assignAll : List setClause → Subscription → Option Subscription
  | [], r => some r
  | c :: rest, r =>
    match assign c r with
    | none => none
    | some r1 => assignAll rest r1

/-- The rows after an UPDATE: every row all WHERE parts select gets the
assignments, every other row stays as it is; `none` when an assignment fails. -/
def updateRows (q : UpdateBuilder) : List Subscription → Option (List Subscription)
  | [] => some []
  | r :: rest =>
    match updateRows q rest with
    | none => none
    | some rest1 =>
      if q.WhereParts.all (fun w => holds w r) then
        match assignAll q.SetClauses r with
        | none => none
        | some r1 => some (r1 :: rest1)
      else some (r :: rest1)

/-- The store executing an UPDATE: the number of rows affected (the rows the
WHERE parts select) and the store afterwards, or an error that leaves the
store as it was. -/
def DB.ExecUpdate (db : DB) (q : UpdateBuilder) : Except String (Nat × DB) :=
  match updateRows q db.rows with
  | none => .error "statement rejected by the store"
  | some rows =>
    .ok ((db.rows.filter (fun r => q.WhereParts.all (fun w => holds w r))).length,
         { rows := rows })

/-- The store executing a DELETE: the number of rows affected (the rows the
WHERE parts select) and the store without them. -/
def DB.ExecDelete (db : DB) (q : DeleteBuilder) : Nat × DB :=
  ((db.rows.filter (fun r => q.WhereParts.all (fun w => holds w r))).length,
   { rows := db.rows.filter (fun r => !(q.WhereParts.all (fun w => holds w r))) })

/-- The store executing an INSERT of one row: the store with the row added
at the end, or an error when a column cannot hold its value. -/
def DB.ExecInsert (db : DB) (columns : List String) (values : List Arg) : Except String DB :=
  match assignAll (List.zipWith (fun c v => { column := c, value := v }) columns values)
      { ID := UUID.Nil, ServiceName := "", Price := 0, UserID := UUID.Nil,
        StartDate := Time.zero, EndDate := none } with
  | none => .error "statement rejected by the store"
  | some row => .ok { rows := db.rows ++ [row] }

/-- `func (r *SubscriptionPostgres) Create(subscription) (uuid.UUID, error)`:
the result and the store afterwards; `id` is what `uuid.New()` returns. -/
def Create (db : DB) (id : UUID) (subscription : Subscription) : Except String UUID × DB :=
  match db.ExecInsert createColumns (createValues id subscription) with
  | .error e =>
    (.error ("SubscriptionPostgres Create() ошибка выполнения SQL-запроса: " ++ e), db)
  | .ok db1 => (.ok id, db1)

/-- `func (r *SubscriptionPostgres) Delete(id uuid.UUID) error`: the error
(`none` is `nil`) and the store afterwards. -/
def Delete (db : DB) (id : UUID) : Option String × DB :=
  let query := deleteQuery id
  match query.ToSql with
  | .error e => (some ("SubscriptionPostgres Delete() ошибка построения SQL-запроса: " ++ e), db)
  | .ok (sqlQuery, args) =>
    let result := db.ExecDelete query
    let rowsAffected := result.1
    if rowsAffected = 0 then
      (some ("SubscriptionPostgres Delete() запись с ID " ++ id.String ++ " не найдена"),
       result.2)
    else (none, result.2)

/-- `func (r *SubscriptionPostgres) Update(id uuid.UUID, subscription) error`:
the error (`none` is `nil`) and the store afterwards. -/
def Update (db : DB) (id : UUID) (subscription : Subscription) : Option String × DB :=
  let builder := updateQuery id subscription
  match builder.ToSql with
  | .error e => (some ("SubscriptionPostgres Update() ошибка построения SQL-запроса: " ++ e), db)
  | .ok (sqlQuery, args) =>
    match db.ExecUpdate builder with
    | .error e => (some ("SubscriptionPostgres Update() ошибка выполнения запроса: " ++ e), db)
    | .ok result =>
      let rowsAffected := result.1
      if rowsAffected = 0 then
        (some ("SubscriptionPostgres Update() запись с ID " ++ id.String ++ " не найдена"),
         result.2)
      else (none, result.2)

end Repository
/-! ## Library: `errors`, `fmt.Errorf` -/

namespace GoErrors

/-- A Go `error` value with its chain: one made from a text (`errors.New`, or
`fmt.Errorf` without `%w`), or one that `fmt.Errorf(text + "%w", err)` made
around `err`. -/
inductive GoError where
  | new (text : String)
  | wrapped (text : String) (err : GoError)
deriving DecidableEq, Repr

/-- The method `Error() string`: the text, followed for a wrapping error by
the message of the error it wraps. -/
def GoError.Error : GoError → String
  | .new text => text
  | .wrapped text err => text ++ err.Error

/-- `errors.Unwrap(err)`: the wrapped error, `none` (nil) when there is none. -/
def GoError.Unwrap : GoError → Option GoError
  | .new _ => none
  | .wrapped _ err => some err

end GoErrors

/-! ## `internal/service/subscription.go` -/

namespace Service

open Models GoErrors

/-- The interface `repository.Subscription` behind `repository.Repository`, for
any implementation: each method, called in a state `σ` of the implementation
(its store, its call counters, ...), returns its Go results and the state
afterwards. An `error` is `none` for `nil`; a slice is `none` for the nil
slice. -/
structure Repository (σ : Type) where
  Create : Subscription → σ → (UUID × Option GoError) × σ
  Get : SubscriptionParams → σ → (Option (List Subscription) × Option GoError) × σ
  Delete : UUID → σ → Option GoError × σ
  Update : UUID → Subscription → σ → Option GoError × σ
  GetCost : SubscriptionParams → σ → (Int × Option GoError) × σ

/-- `type SubscriptionService struct { repository repository.Repository }` -/
structure SubscriptionService (σ : Type) where
  repository : Repository σ

/-- `func newSubscriptionService(repository repository.Repository) *SubscriptionService` -/
def newSubscriptionService {σ : Type} (repository : Repository σ) : SubscriptionService σ :=
  { repository := repository }

/-- `func (s *SubscriptionService) Create(subscription) (uuid.UUID, error)` -/
def SubscriptionService.Create {σ : Type} (s : SubscriptionService σ)
    (subscription : Subscription) (st : σ) : (UUID × Option GoError) × σ :=
  let r := s.repository.Create subscription st
  match r.1.2 with
  | some err => ((UUID.Nil, some (.wrapped "SubscriptionService Create() " err)), r.2)
  | none => ((r.1.1, none), r.2)

/-- `func (s *SubscriptionService) Get(params) ([]models.Subscription, error)` -/
def SubscriptionService.Get {σ : Type} (s : SubscriptionService σ)
    (params : SubscriptionParams) (st : σ) :
    (Option (List Subscription) × Option GoError) × σ :=
  let r := s.repository.Get params st
  match r.1.2 with
  | some err => ((none, some (.wrapped "SubscriptionService Get() " err)), r.2)
  | none => ((r.1.1, none), r.2)

/-- `func (s *SubscriptionService) Delete(id uuid.UUID) error` -/
def SubscriptionService.Delete {σ : Type} (s : SubscriptionService σ) (id : UUID) (st : σ) :
    Option GoError × σ :=
  let r := s.repository.Delete id st
  match r.1 with
  | some err => (some (.wrapped "SubscriptionService Delete() " err), r.2)
  | none => (none, r.2)

/-- `func (s *SubscriptionService) Update(uuid uuid.UUID, subscription) error` -/
def SubscriptionService.Update {σ : Type} (s : SubscriptionService σ) (uuid : UUID)
    (subscription : Subscription) (st : σ) : Option GoError × σ :=
  let r := s.repository.Update uuid subscription st
  match r.1 with
  | some err => (some (.wrapped "SubscriptionService Update() " err), r.2)
  | none => (none, r.2)

/-- `func (s *SubscriptionService) GetCost(params) (int64, error)` -/
def SubscriptionService.GetCost {σ : Type} (s : SubscriptionService σ)
    (params : SubscriptionParams) (st : σ) : (Int × Option GoError) × σ :=
  let r := s.repository.GetCost params st
  match r.1.2 with
  | some err => ((0, some (.wrapped "SubscriptionService GetCost() " err)), r.2)
  | none => ((r.1.1, none), r.2)

/-- A call received by a repository. -/
inductive RepositoryCall where
  | Create (subscription : Subscription)
  | Get (params : SubscriptionParams)
  | Delete (id : UUID)
  | Update (id : UUID) (subscription : Subscription)
  | GetCost (params : SubscriptionParams)
deriving DecidableEq, Repr

/-- A repository that answers as `answers` does and keeps, as its state, the
list of the calls it received, oldest first. -/
def recording (answers : Repository Unit) : Repository (List RepositoryCall) :=
  { Create := fun subscription log =>
      ((answers.Create subscription ()).1, log ++ [.Create subscription]),
    Get := fun params log => ((answers.Get params ()).1, log ++ [.Get params]),
    Delete := fun id log => ((answers.Delete id ()).1, log ++ [.Delete id]),
    Update := fun id subscription log =>
      ((answers.Update id subscription ()).1, log ++ [.Update id subscription]),
    GetCost := fun params log => ((answers.GetCost params ()).1, log ++ [.GetCost params]) }

end Service

/-! ## `internal/handler`: create, update, delete, cost and the routes -/

namespace Handler

open GoTime Models

/-- `func (h *Handler) createSubscription(c *gin.Context)`; `body` is what
`c.BindJSON(&r)` decoded, `none` when it returned an error. -/
def createSubscription (services : Services) (body : Option reqCreate) : Outcome :=
  match body with
  | none => newErrorResponse 400 "invalid request body"
  | some r =>
    match validateCreate r with
    | some err => newErrorResponse 400 err
    | none =>
      match reqToSubscription r with
      | .error err => newErrorResponse 400 err
      | .ok subscription =>
        match services.Create subscription with
        | .error e =>
          { status := 500, body := .error "internal server error",
            calls := [.Create subscription] }
        | .ok id => { status := 200, body := .uuid id, calls := [.Create subscription] }

/-- `func (h *Handler) deleteSubscription(c *gin.Context)`, given the path
parameter `id` and the library function `uuid.Parse`. -/
def deleteSubscription (services : Services) (uuidParse : String → Option UUID)
    (idStr : String) : Outcome :=
  match uuidParse idStr with
  | none => newErrorResponse 400 "invalid subscription id"
  | some id =>
    match services.Delete id with
    | .error e =>
      { status := 500, body := .error "internal server error", calls := [.Delete id] }
    | .ok _ => { status := 200, body := .ok, calls := [.Delete id] }

/-- `func (h *Handler) updateSubscription(c *gin.Context)`, given the path
parameter `id`, the library function `uuid.Parse` and the decoded body (`none`
when `c.BindJSON(&r)` returned an error). -/
def updateSubscription (services : Services) (uuidParse : String → Option UUID)
    (idStr : String) (body : Option reqCreate) : Outcome :=
  match uuidParse idStr with
  | none => newErrorResponse 400 "invalid subscription id"
  | some id =>
    match body with
    | none => newErrorResponse 400 "invalid request body"
    | some r =>
      match validateCreate r with
      | some err => newErrorResponse 400 err
      | none =>
        match reqToSubscription r with
        | .error err => newErrorResponse 400 err
        | .ok subscription =>
          match services.Update id subscription with
          | .error e =>
            { status := 500, body := .error "internal server error",
              calls := [.Update id subscription] }
          | .ok _ => { status := 200, body := .ok, calls := [.Update id subscription] }

/-- `func (h *Handler) getCost(c *gin.Context)`; `body` is what
`c.BindJSON(&r)` decoded, `none` when it returned an error. -/
def getCost (services : Services) (body : Option reqCost) : Outcome :=
  match body with
  | none => newErrorResponse 400 "invalid request body"
  | some r =>
    match reqToSubscriptionParams r with
    | .error err => newErrorResponse 400 err
    | .ok params =>
      match validateCost params with
      | some err => newErrorResponse 400 err
      | none =>
        match services.GetCost params with
        | .error e =>
          { status := 500, body := .error "internal server error", calls := [.GetCost params] }
        | .ok cost => { status := 200, body := .cost cost, calls := [.GetCost params] }

/-- What a service call does to the store: the service forwards it to the
repository operation of the same name; `newID` is the identifier `uuid.New()`
gives to a created record. -/
def applyCall (newID : UUID) (call : Call) (db : Repository.DB) : Repository.DB :=
  match call with
  | .Create s => (Repository.Create db newID s).2
  | .Get _ => db
  | .Delete id => (Repository.Delete db id).2
  | .Update id s => (Repository.Update db id s).2
  | .GetCost _ => db

/-- The store after a handler ran: a handler reaches the store only through
the calls it makes to the service. -/
def storeAfter (newID : UUID) (o : Outcome) (db : Repository.DB) : Repository.DB :=
  o.calls.foldl (fun d call => applyCall newID call d) db

/-- The handler functions of the package a route can name. -/
inductive HandlerFunc where
  | swagger
  | createSubscription
  | getSubscriptions
  | deleteSubscription
  | updateSubscription
  | getCost
deriving DecidableEq, Repr

/-- A registered route (`gin.RouteInfo`): method, full path and handler. -/
structure RouteInfo where
  Method : String
  Path : String
  Handler : HandlerFunc
deriving DecidableEq, Repr

/-- The parts of a path between its slashes; "/a/" has the parts "", "a", "". -/
def splitSlash : List Char → List (List Char)
  | [] => [[]]
  | c :: rest =>
    match splitSlash rest with
    | [] => [[]]
    | seg :: more => if c = '/' then [] :: seg :: more else (c :: seg) :: more

/-- `path.Join(absolutePath, relativePath)` for paths without `.` and `..`
elements: the non-empty parts of both, each after one slash. -/
def pathJoin (absolutePath relativePath : String) : String :=
  let parts := ((splitSlash absolutePath.toList) ++ (splitSlash relativePath.toList)).filter
    (fun seg => seg ≠ [])
  if parts = [] then "/" else String.mk (parts.flatMap (fun seg => '/' :: seg))

/-- `func joinPaths(absolutePath, relativePath string) string` of gin: the
joined path, keeping a trailing slash of the relative path. -/
def joinPaths (absolutePath relativePath : String) : String :=
  if relativePath = "" then absolutePath
  else
    let finalPath := pathJoin absolutePath relativePath
    if relativePath.toList.getLast? = some '/' && finalPath.toList.getLast? ≠ some '/' then
      finalPath ++ "/"
    else finalPath

/-- `group.handle(method, relativePath, handler)`: the route a router group
with base path `basePath` registers. -/
def handle (basePath method relativePath : String) (h : HandlerFunc) : RouteInfo :=
  { Method := method, Path := joinPaths basePath relativePath, Handler := h }

/-- `func (h *Handler) InitRoutes() *gin.Engine`: the routes it registers, in
order (the middleware is left out). -/
def InitRoutes : List RouteInfo :=
  let router := "/"
  let subscription := joinPaths router "/subscription"
  [ handle router "GET" "/swagger/*any" .swagger,
    handle subscription "POST" "/" .createSubscription,
    handle subscription "GET" "/:user_id/:page/:limit" .getSubscriptions,
    handle subscription "GET" "/:user_id" .getSubscriptions,
    handle subscription "DELETE" "/:id" .deleteSubscription,
    handle subscription "PUT" "/:id" .updateSubscription,
    handle subscription "GET" "/cost" .getCost ]

/-- The `@Router` annotation above `getCost` (line 307): path and method. -/
def getCostRouterAnnotation : String × String := ("/subscription/cost", "post")

/-- Whether the parts of a route pattern accept the parts of a request path:
a part `:name` accepts any non-empty part, a part `*name` accepts all that is
left, any other part accepts itself. -/
def matchParts : List (List Char) → List (List Char) → Bool
  | [], [] => true
  | [], _ :: _ => false
  | p :: ps, [] => p.head? == some '*'
  | p :: ps, s :: ss =>
    if p.head? == some '*' then true
    else if p.head? == some ':' then s ≠ [] && matchParts ps ss
    else p = s && matchParts ps ss

/-- The routes of a table that accept a request: same method, and a pattern
that accepts the path. No route means no handler runs (gin answers 404). -/
def candidates (routes : List RouteInfo) (method path : String) : List RouteInfo :=
  routes.filter (fun r =>
    r.Method = method && matchParts (splitSlash r.Path.toList) (splitSlash path.toList))

end Handler
/-! ## Theorems -/

/-! ### The month-year parser -/

section ParseLemmas
open GoTime

theorem isDigitChar_iff (c : Char) : isDigitChar c = true ↔ 48 ≤ c.toNat ∧ c.toNat ≤ 57 := by
  simp [isDigitChar]

theorem digit_ne_minus (c : Char) (h : isDigitChar c = true) : c ≠ '-' := by
  rintro rfl
  revert h
  decide

theorem digit_ne_plus (c : Char) (h : isDigitChar c = true) : c ≠ '+' := by
  rintro rfl
  revert h
  decide

theorem leadingInt_nondigit (c : Char) (rest : List Char) (x : Nat)
    (h : isDigitChar c = false) : leadingInt (c :: rest) x = some (x, c :: rest) := by
  have : c.toNat < 48 ∨ c.toNat > 57 := by
    simp [isDigitChar] at h
    omega
  simp [leadingInt, this]

theorem leadingInt_digit (c : Char) (rest : List Char) (x : Nat)
    (h : isDigitChar c = true) (hx : x ≤ 999) :
    leadingInt (c :: rest) x = leadingInt rest (x * 10 + (c.toNat - 48)) := by
  rw [isDigitChar_iff] at h
  have h1 : ¬ (c.toNat < 48 ∨ c.toNat > 57) := by omega
  have h2 : ¬ (x > 2 ^ 63 / 10) := by norm_num; omega
  have h3 : ¬ (x * 10 + (c.toNat - 48) > 2 ^ 63) := by norm_num; omega
  simp only [leadingInt, Bool.or_eq_true, decide_eq_true_eq, h1, h2, h3, if_false]


theorem atoi_four (c d e f : Char) (hc : isDigitChar c = true) :
    atoi [c, d, e, f] =
      if isDigitChar d = true ∧ isDigitChar e = true ∧ isDigitChar f = true then
        some (digitVal c * 1000 + digitVal d * 100 + digitVal e * 10 + digitVal f)
      else none := by
  have hm := digit_ne_minus c hc
  have hp := digit_ne_plus c hc
  have hc2 := (isDigitChar_iff c).1 hc
  have hhead : atoi [c, d, e, f] =
      match leadingInt [c, d, e, f] 0 with
      | none => none
      | some (q, rem) => if rem.length > 0 then none else some (q : Int) := by
    simp [atoi, hm, hp]
  rw [hhead, leadingInt_digit c _ 0 hc (by omega)]
  cases hd : isDigitChar d with
  | false => simp [leadingInt_nondigit d _ _ hd]
  | true =>
    have hd2 := (isDigitChar_iff d).1 hd
    rw [leadingInt_digit d _ _ hd (by omega)]
    cases he : isDigitChar e with
    | false => simp [leadingInt_nondigit e _ _ he]
    | true =>
      have he2 := (isDigitChar_iff e).1 he
      rw [leadingInt_digit e _ _ he (by omega)]
      cases hf : isDigitChar f with
      | false => simp [leadingInt_nondigit f _ _ hf]
      | true =>
        have hf2 := (isDigitChar_iff f).1 hf
        rw [leadingInt_digit f _ _ hf (by omega)]
        simp only [leadingInt, List.length_nil, gt_iff_lt, lt_self_iff_false, if_false,
          and_self, if_true, digitVal, Option.some.injEq]
        omega

theorem daysIn_ge (m y : Int) (h1 : 1 ≤ m) (h2 : m ≤ 12) : 1 ≤ daysIn m y := by
  unfold daysIn
  split
  · omega
  · have : m = 1 ∨ m = 2 ∨ m = 3 ∨ m = 4 ∨ m = 5 ∨ m = 6 ∨ m = 7 ∨ m = 8 ∨ m = 9 ∨ m = 10
        ∨ m = 11 ∨ m = 12 := by omega
    rcases this with h | h | h | h | h | h | h | h | h | h | h | h <;> subst h <;> decide


theorem getnum_fixed (l : List Char) :
    getnum l true =
      match l with
      | a :: b :: rest =>
        if isDigitChar a = true ∧ isDigitChar b = true then
          some (digitVal a * 10 + digitVal b, rest)
        else none
      | _ => none := by
  rcases l with _ | ⟨a, _ | ⟨b, rest⟩⟩
  · simp [getnum, isDigit]
  · simp [getnum, isDigit]
  · cases ha : isDigitChar a <;> cases hb : isDigitChar b <;>
      simp [getnum, isDigit, ha, hb]

theorem skip_dash (l : List Char) :
    skip l ['-'] =
      match l with
      | c :: rest => if c = '-' then some rest else none
      | [] => none := by
  rcases l with _ | ⟨c, rest⟩
  · simp [skip]
  · by_cases h : c = '-' <;> simp [skip, h]

/-- The year part of `ParseMonthYear`: what the code does with the text after
the hyphen. -/
theorem year_part (month : Int) (h1 : 1 ≤ month) (h2 : month ≤ 12) (value2 : List Char) :
    (if (decide (value2.length < 4) || !isDigit value2 0) = true then none
     else
      match atoi (value2.take 4) with
      | none => none
      | some year =>
        if (value2.drop 4).length ≠ 0 then none
        else
          if (1 : Int) < 1 ∨ (1 : Int) > daysIn month year then none
          else some (Date year month 1 0 0 0 0)) =
      match value2 with
      | [y1, y2, y3, y4] =>
        if isDigitChar y1 = true ∧ isDigitChar y2 = true ∧ isDigitChar y3 = true
            ∧ isDigitChar y4 = true then
          some (Date (digitVal y1 * 1000 + digitVal y2 * 100 + digitVal y3 * 10 + digitVal y4)
            month 1 0 0 0 0)
        else none
      | _ => none := by
  rcases value2 with _ | ⟨y1, _ | ⟨y2, _ | ⟨y3, _ | ⟨y4, _ | ⟨y5, tl⟩⟩⟩⟩⟩
  · simp
  · simp
  · simp
  · simp
  · cases hy1 : isDigitChar y1 with
    | false => simp [isDigit, hy1]
    | true =>
      simp only [List.length_cons, List.length_nil, isDigit, List.get?_cons_zero, hy1,
        List.take, atoi_four y1 y2 y3 y4 hy1, List.drop]
      by_cases h : isDigitChar y2 = true ∧ isDigitChar y3 = true ∧ isDigitChar y4 = true
      · have hd := daysIn_ge month
          (digitVal y1 * 1000 + digitVal y2 * 100 + digitVal y3 * 10 + digitVal y4) h1 h2
        simp [h, hd]
      · simp [h]
  · cases hy1 : isDigitChar y1 with
    | false => simp [isDigit, hy1]
    | true =>
      simp only [List.length_cons, isDigit, List.get?_cons_zero, hy1,
        List.take, atoi_four y1 y2 y3 y4 hy1, List.drop]
      by_cases h : isDigitChar y2 = true ∧ isDigitChar y3 = true ∧ isDigitChar y4 = true
      · simp [h]
      · simp [h]


/-- The result of `ParseMonthYear` on every text, by the shape of the text. -/
theorem ParseMonthYear_mk (l : List Char) :
    ParseMonthYear (String.mk l) =
      match l with
      | [m1, m2, sep, y1, y2, y3, y4] =>
        if isDigitChar m1 = true ∧ isDigitChar m2 = true ∧ sep = '-' ∧
            isDigitChar y1 = true ∧ isDigitChar y2 = true ∧ isDigitChar y3 = true ∧
            isDigitChar y4 = true ∧
            1 ≤ digitVal m1 * 10 + digitVal m2 ∧ digitVal m1 * 10 + digitVal m2 ≤ 12 then
          some (Date (digitVal y1 * 1000 + digitVal y2 * 100 + digitVal y3 * 10 + digitVal y4)
            (digitVal m1 * 10 + digitVal m2) 1 0 0 0 0)
        else none
      | _ => none := by
  unfold ParseMonthYear
  simp only [String.toList, getnum_fixed, skip_dash]
  rcases l with _ | ⟨m1, _ | ⟨m2, _ | ⟨sep, value2⟩⟩⟩
  · simp
  · simp
  · simp only []
    split_ifs <;> simp
  · cases h1 : isDigitChar m1
    · rcases value2 with _ | ⟨y1, _ | ⟨y2, _ | ⟨y3, _ | ⟨y4, _ | ⟨y5, tl⟩⟩⟩⟩⟩ <;> simp [h1]
    cases h2 : isDigitChar m2
    · rcases value2 with _ | ⟨y1, _ | ⟨y2, _ | ⟨y3, _ | ⟨y4, _ | ⟨y5, tl⟩⟩⟩⟩⟩ <;> simp [h2]
    simp only [h1, h2, and_self, if_true, true_and]
    by_cases hlo : digitVal m1 * 10 + digitVal m2 ≤ 0
    · have hlo2 : ¬ (1 ≤ digitVal m1 * 10 + digitVal m2) := by omega
      rcases value2 with _ | ⟨y1, _ | ⟨y2, _ | ⟨y3, _ | ⟨y4, _ | ⟨y5, tl⟩⟩⟩⟩⟩ <;>
        simp [hlo, hlo2]
    by_cases hhi : 12 < digitVal m1 * 10 + digitVal m2
    · have hhi2 : ¬ (digitVal m1 * 10 + digitVal m2 ≤ 12) := by omega
      rcases value2 with _ | ⟨y1, _ | ⟨y2, _ | ⟨y3, _ | ⟨y4, _ | ⟨y5, tl⟩⟩⟩⟩⟩ <;>
        simp [hhi, hhi2]
    have hr1 : 1 ≤ digitVal m1 * 10 + digitVal m2 := by omega
    have hr2 : digitVal m1 * 10 + digitVal m2 ≤ 12 := by omega
    simp only [hlo, hhi, decide_False, Bool.or_self, Bool.false_eq_true, if_false]
    by_cases hsep : sep = '-'
    swap
    · rcases value2 with _ | ⟨y1, _ | ⟨y2, _ | ⟨y3, _ | ⟨y4, _ | ⟨y5, tl⟩⟩⟩⟩⟩ <;> simp [hsep]
    subst hsep
    simp only [if_true]
    have hy := year_part (digitVal m1 * 10 + digitVal m2) hr1 hr2 value2
    simp only [Bool.or_eq_true, decide_eq_true_eq, Bool.not_eq_true', ne_eq] at hy ⊢
    rw [hy]
    rcases value2 with _ | ⟨y1, _ | ⟨y2, _ | ⟨y3, _ | ⟨y4, _ | ⟨y5, tl⟩⟩⟩⟩⟩ <;>
      simp [hr1, hr2, h1, h2]

end ParseLemmas

/-! ### Calendar arithmetic -/

section DateLemmas
open GoTime

theorem norm_id (hi lo base : Int) (h0 : 0 ≤ lo) (h1 : lo < base) :
    GoTime.norm hi lo base = (hi, lo) := by
  simp [GoTime.norm, not_lt.2 h0, not_le.2 h1]

/-- `Date` at the first day of a month, midnight: whole days only. -/
theorem Date_first_of_month (year month : Int) (h1 : 1 ≤ month) (h2 : month ≤ 12) :
    Date year month 1 0 0 0 0 =
      ⟨(daysSinceEpoch year + daysBefore (month - 1)
          + (if isLeap year && decide (month ≥ 3) then 1 else 0)) * 86400, 0⟩ := by
  unfold Date
  have e1 := norm_id year (month - 1) 12 (by omega) (by omega)
  have e2 := norm_id 0 0 1000000000 (by omega) (by omega)
  have e3 := norm_id 0 0 60 (by omega) (by omega)
  have e4 := norm_id 1 0 24 (by omega) (by omega)
  simp only [e1, e2, e3, e4]
  simp

theorem daysSinceEpoch_mono (y1 y2 : Int) (h : y1 < y2) :
    daysSinceEpoch y1 + 365 ≤ daysSinceEpoch y2 := by
  unfold daysSinceEpoch
  simp only []
  omega

theorem daysBefore_bounds (m : Int) (h1 : 1 ≤ m) (h2 : m ≤ 12) :
    28 * (m - 1) ≤ daysBefore (m - 1) ∧ daysBefore (m - 1) ≤ 334 := by
  have : m = 1 ∨ m = 2 ∨ m = 3 ∨ m = 4 ∨ m = 5 ∨ m = 6 ∨ m = 7 ∨ m = 8 ∨ m = 9 ∨ m = 10
      ∨ m = 11 ∨ m = 12 := by omega
  rcases this with h | h | h | h | h | h | h | h | h | h | h | h <;> subst h <;> decide

theorem daysBefore_step (m : Int) (h1 : 1 ≤ m) (h2 : m < 12) :
    daysBefore (m - 1) + 28 ≤ daysBefore m := by
  have : m = 1 ∨ m = 2 ∨ m = 3 ∨ m = 4 ∨ m = 5 ∨ m = 6 ∨ m = 7 ∨ m = 8 ∨ m = 9 ∨ m = 10
      ∨ m = 11 := by omega
  rcases this with h | h | h | h | h | h | h | h | h | h | h <;> subst h <;> decide


theorem daysBefore_lt (m1 m2 : Int) (h1 : 1 ≤ m1) (h : m1 < m2) (h2 : m2 ≤ 12) :
    daysBefore (m1 - 1) + 28 ≤ daysBefore (m2 - 1) := by
  have a : m1 = 1 ∨ m1 = 2 ∨ m1 = 3 ∨ m1 = 4 ∨ m1 = 5 ∨ m1 = 6 ∨ m1 = 7 ∨ m1 = 8 ∨ m1 = 9
      ∨ m1 = 10 ∨ m1 = 11 := by omega
  have b : m2 = 2 ∨ m2 = 3 ∨ m2 = 4 ∨ m2 = 5 ∨ m2 = 6 ∨ m2 = 7 ∨ m2 = 8 ∨ m2 = 9
      ∨ m2 = 10 ∨ m2 = 11 ∨ m2 = 12 := by omega
  rcases a with a | a | a | a | a | a | a | a | a | a | a <;>
    rcases b with b | b | b | b | b | b | b | b | b | b | b <;>
      subst a <;> subst b <;> first | omega | decide

/-- The day count behind `Date year month 1 0 0 0 0`. -/
theorem dayCount_lt (y1 m1 y2 m2 : Int) (h11 : 1 ≤ m1) (h12 : m1 ≤ 12) (h21 : 1 ≤ m2)
    (h22 : m2 ≤ 12) (h : y1 < y2 ∨ (y1 = y2 ∧ m1 < m2)) :
    daysSinceEpoch y1 + daysBefore (m1 - 1)
        + (if isLeap y1 && decide (m1 ≥ 3) then 1 else 0)
      < daysSinceEpoch y2 + daysBefore (m2 - 1)
        + (if isLeap y2 && decide (m2 ≥ 3) then 1 else 0) := by
  have b1 := daysBefore_bounds m1 h11 h12
  have b2 := daysBefore_bounds m2 h21 h22
  rcases h with h | ⟨rfl, h⟩
  · have := daysSinceEpoch_mono y1 y2 h
    split_ifs <;> omega
  · have := daysBefore_lt m1 m2 h11 h h22
    split_ifs <;> omega

/-- The instants of two parsed month-years compare as the calendar does. -/
theorem Date_before_iff (y1 m1 y2 m2 : Int) (h11 : 1 ≤ m1) (h12 : m1 ≤ 12) (h21 : 1 ≤ m2)
    (h22 : m2 ≤ 12) :
    (Date y1 m1 1 0 0 0 0).Before (Date y2 m2 1 0 0 0 0) = true
      ↔ (y1 < y2 ∨ (y1 = y2 ∧ m1 < m2)) := by
  rw [Date_first_of_month y1 m1 h11 h12, Date_first_of_month y2 m2 h21 h22]
  simp only [Time.Before, lt_self_iff_false, decide_False, Bool.and_false, Bool.or_false,
    decide_eq_true_eq]
  constructor
  · intro hlt
    by_contra hn
    have hge : y2 < y1 ∨ (y2 = y1 ∧ m2 < m1) ∨ (y1 = y2 ∧ m1 = m2) := by omega
    rcases hge with hge | hge | ⟨rfl, rfl⟩
    · have := dayCount_lt y2 m2 y1 m1 h21 h22 h11 h12 (Or.inl hge)
      omega
    · have := dayCount_lt y2 m2 y1 m1 h21 h22 h11 h12 (Or.inr hge)
      omega
    · omega
  · intro h
    have := dayCount_lt y1 m1 y2 m2 h11 h12 h21 h22 h
    omega

end DateLemmas

/-! ### Request validation -/

section Validation

open GoTime Models Handler

theorem Before_irrefl (t : Time) : t.Before t = false := by
  simp [Time.Before]

theorem Before_false_iff (e s : Time) :
    e.Before s = false ↔ (s.sec < e.sec ∨ (s.sec = e.sec ∧ s.nsec ≤ e.nsec)) := by
  simp only [Time.Before, Bool.or_eq_false_iff, Bool.and_eq_false_iff, decide_eq_false_iff_not,
    beq_eq_false_iff_ne, ne_eq]
  omega

/-- C1 (failing input): a cost request with start_date "02-0001" and end_date
"01-0001" supplies both dates, both parse, and the parsed end date precedes
the parsed start date; yet `reqToSubscriptionParams` followed by
`validateCost` returns no error, because the parsed end date is the zero
`time.Time` that `validateCost` reads as "not supplied". The create/update path
rejects the same two dates. -/
theorem C1_validateCost_accepts_end_before_start :
    ParseMonthYear "02-0001" = some ⟨2678400, 0⟩ ∧
    ParseMonthYear "01-0001" = some ⟨0, 0⟩ ∧
    Time.Before ⟨0, 0⟩ ⟨2678400, 0⟩ = true ∧
    costParams { UserID := none, ServiceName := "", StartDate := "02-0001",
                 EndDate := "01-0001" }
      = .ok { Page := 0, Limit := 0, UserID := none, ServiceName := "",
              StartDate := ⟨2678400, 0⟩, EndDate := ⟨0, 0⟩ } ∧
    reqToSubscription { ServiceName := "tv", Price := 1, UserID := ⟨1⟩,
                        StartDate := "02-0001", EndDate := "01-0001" }
      = .error "end_date must be after start_date" := by
  refine ⟨by decide, by decide, by decide, by rfl, by rfl⟩

/-- The ordering check of the cost path away from the zero time: when both
dates are supplied and parse to instants other than the zero `time.Time`, an
end date before the start date is rejected. -/
theorem costParams_rejects_end_before_start (r : reqCost) (s e : Time)
    (hs0 : r.StartDate ≠ "") (he0 : r.EndDate ≠ "")
    (hs : ParseMonthYear r.StartDate = some s) (he : ParseMonthYear r.EndDate = some e)
    (hsz : s.IsZero = false) (hez : e.IsZero = false) (hlt : e.Before s = true) :
    costParams r = .error "end_date must be after start_date" := by
  simp [costParams, reqToSubscriptionParams, validateCost, hs0, he0, hs, he, hsz, hez, hlt]

/-- C2: when start_date parses and end_date is non-empty and parses,
`reqToSubscription` fails if and only if the parsed end date is before the
parsed start date, and then with the error "end_date must be after
start_date"; an end date equal to the start date is accepted; and every
subscription `reqToSubscription` returns has no end date or an end date that
is not before (is at or after) its start date. -/
theorem C2_reqToSubscription_end_before_start :
    (∀ (r : reqCreate) (start parsedEnd : Time),
      ParseMonthYear r.StartDate = some start → r.EndDate ≠ "" →
      ParseMonthYear r.EndDate = some parsedEnd →
      ((reqToSubscription r = .error "end_date must be after start_date"
          ↔ parsedEnd.Before start = true) ∧
       ((∃ e, reqToSubscription r = .error e) ↔ parsedEnd.Before start = true) ∧
       (parsedEnd = start →
          reqToSubscription r = .ok { ID := UUID.Nil, ServiceName := r.ServiceName,
                                      Price := r.Price, UserID := r.UserID,
                                      StartDate := start, EndDate := some start }))) ∧
    (∀ (r : reqCreate) (sub : Subscription), reqToSubscription r = .ok sub →
      sub.EndDate = none ∨
      ∃ e, sub.EndDate = some e ∧ e.Before sub.StartDate = false ∧
        (sub.StartDate.sec < e.sec ∨
          (sub.StartDate.sec = e.sec ∧ sub.StartDate.nsec ≤ e.nsec))) := by
  constructor
  · intro r start parsedEnd hs hne he
    refine ⟨?_, ?_, ?_⟩
    · cases hb : parsedEnd.Before start <;> simp [reqToSubscription, hs, hne, he, hb]
    · cases hb : parsedEnd.Before start <;> simp [reqToSubscription, hs, hne, he, hb]
    · intro heq
      subst heq
      simp [reqToSubscription, hs, hne, he, Before_irrefl]
  · intro r sub h
    unfold reqToSubscription at h
    cases hs : ParseMonthYear r.StartDate with
    | none => simp [hs] at h
    | some start =>
      by_cases hne : r.EndDate = ""
      · simp [hs, hne] at h
        left; rw [← h]
      · cases he : ParseMonthYear r.EndDate with
        | none => simp [hs, hne, he] at h
        | some parsedEnd =>
          cases hb : parsedEnd.Before start with
          | true => simp [hs, hne, he, hb] at h
          | false =>
            simp [hs, hne, he, hb] at h
            right
            refine ⟨parsedEnd, ?_, ?_, ?_⟩
            · rw [← h]
            · rw [← h]; exact hb
            · rw [← h]; exact (Before_false_iff parsedEnd start).1 hb

/-- An instance of C2: start_date "03-2024" with end_date "02-2024" is rejected,
and with end_date "03-2024" it is accepted. -/
theorem C2_reqToSubscription_end_before_start_witness :
    (reqToSubscription { ServiceName := "tv", Price := 5, UserID := ⟨1⟩,
                         StartDate := "03-2024", EndDate := "02-2024" }
      = .error "end_date must be after start_date"
        ↔ Time.Before ⟨63842342400, 0⟩ ⟨63844848000, 0⟩ = true) ∧
    reqToSubscription { ServiceName := "tv", Price := 5, UserID := ⟨1⟩,
                        StartDate := "03-2024", EndDate := "03-2024" }
      = .ok { ID := UUID.Nil, ServiceName := "tv", Price := 5, UserID := ⟨1⟩,
              StartDate := ⟨63844848000, 0⟩, EndDate := some ⟨63844848000, 0⟩ } :=
  ⟨(C2_reqToSubscription_end_before_start.1
      { ServiceName := "tv", Price := 5, UserID := ⟨1⟩, StartDate := "03-2024",
        EndDate := "02-2024" } ⟨63844848000, 0⟩ ⟨63842342400, 0⟩
      (by decide) (by decide) (by decide)).1,
   (C2_reqToSubscription_end_before_start.1
      { ServiceName := "tv", Price := 5, UserID := ⟨1⟩, StartDate := "03-2024",
        EndDate := "03-2024" } ⟨63844848000, 0⟩ ⟨63844848000, 0⟩
      (by decide) (by decide) (by decide)).2.2 rfl⟩

end Validation

section ValidateCreate

open GoTime Models Handler

/-- C3: `validateCreate` returns no error exactly when service_name is
non-empty, price is positive, user_id is not the nil UUID and start_date is
non-empty; otherwise the error names the first violated rule, in the order
service_name, price, user_id, start_date. -/
theorem C3_validateCreate_rules (r : reqCreate) :
    (validateCreate r = none ↔
      (r.ServiceName ≠ "" ∧ 0 < r.Price ∧ r.UserID ≠ UUID.Nil ∧ r.StartDate ≠ "")) ∧
    (r.ServiceName = "" → validateCreate r = some "service_name is required") ∧
    (r.ServiceName ≠ "" → r.Price ≤ 0 → validateCreate r = some "price must be positive") ∧
    (r.ServiceName ≠ "" → 0 < r.Price → r.UserID = UUID.Nil →
      validateCreate r = some "user_id is required") ∧
    (r.ServiceName ≠ "" → 0 < r.Price → r.UserID ≠ UUID.Nil → r.StartDate = "" →
      validateCreate r = some "start_date is required") := by
  unfold validateCreate
  refine ⟨?_, ?_, ?_, ?_, ?_⟩
  · split_ifs <;> simp_all
  · intro h; simp [h]
  · intro h1 h2; simp [h1, h2]
  · intro h1 h2 h3; simp [h1, not_le.2 h2, h3]
  · intro h1 h2 h3 h4; simp [h1, not_le.2 h2, h3, h4]

/-- An instance of C3: a request with a service name, the price 0, a user and a
start date is refused for its price. -/
theorem C3_validateCreate_rules_witness :
    validateCreate { ServiceName := "tv", Price := 0, UserID := ⟨1⟩, StartDate := "01-2024",
                     EndDate := "" } = some "price must be positive" :=
  (C3_validateCreate_rules
    { ServiceName := "tv", Price := 0, UserID := ⟨1⟩, StartDate := "01-2024",
      EndDate := "" }).2.2.1
    (by decide) (by decide)

end ValidateCreate

section MonthYearFormat

open GoTime Models Handler

/-- Two first-of-month instants are equal only for the same year and month. -/
theorem Date_first_of_month_inj (y1 m1 y2 m2 : Int) (h11 : 1 ≤ m1) (h12 : m1 ≤ 12)
    (h21 : 1 ≤ m2) (h22 : m2 ≤ 12)
    (h : Date y1 m1 1 0 0 0 0 = Date y2 m2 1 0 0 0 0) : y1 = y2 ∧ m1 = m2 := by
  have a := Date_before_iff y1 m1 y2 m2 h11 h12 h21 h22
  have b := Date_before_iff y2 m2 y1 m1 h21 h22 h11 h12
  rw [h] at a
  rw [h] at b
  simp only [Before_irrefl, Bool.false_eq_true, false_iff] at a b
  omega

/-- C4: `time.Parse("01-2006", s)` accepts `s` exactly when it is two digits
that denote a month 01..12, a hyphen and four digits; the result is then
`Date(year, month, 1, 0, 0, 0, 0, UTC)`, a whole number of days after the
epoch, from which year and month can be read back; "01-2024" and "12-2024"
give January 1 and December 1 of 2024. On rejection `reqToSubscription` and
`reqToSubscriptionParams` return the error that names the field; on success
they store the parsed instants. -/
theorem C4_month_year_format :
    (∀ s : String, (∃ t, ParseMonthYear s = some t) ↔
      ∃ m1 m2 y1 y2 y3 y4 : Char, s = String.mk [m1, m2, '-', y1, y2, y3, y4] ∧
        isDigitChar m1 = true ∧ isDigitChar m2 = true ∧ isDigitChar y1 = true ∧
        isDigitChar y2 = true ∧ isDigitChar y3 = true ∧ isDigitChar y4 = true ∧
        1 ≤ digitVal m1 * 10 + digitVal m2 ∧ digitVal m1 * 10 + digitVal m2 ≤ 12) ∧
    (∀ m1 m2 y1 y2 y3 y4 : Char,
      isDigitChar m1 = true → isDigitChar m2 = true → isDigitChar y1 = true →
      isDigitChar y2 = true → isDigitChar y3 = true → isDigitChar y4 = true →
      1 ≤ digitVal m1 * 10 + digitVal m2 → digitVal m1 * 10 + digitVal m2 ≤ 12 →
      ParseMonthYear (String.mk [m1, m2, '-', y1, y2, y3, y4])
        = some (Date (digitVal y1 * 1000 + digitVal y2 * 100 + digitVal y3 * 10 + digitVal y4)
            (digitVal m1 * 10 + digitVal m2) 1 0 0 0 0)) ∧
    (∀ year month : Int, 1 ≤ month → month ≤ 12 →
      Date year month 1 0 0 0 0 =
        ⟨(daysSinceEpoch year + daysBefore (month - 1)
            + (if isLeap year && decide (month ≥ 3) then 1 else 0)) * 86400, 0⟩) ∧
    (∀ y1 m1 y2 m2 : Int, 1 ≤ m1 → m1 ≤ 12 → 1 ≤ m2 → m2 ≤ 12 →
      Date y1 m1 1 0 0 0 0 = Date y2 m2 1 0 0 0 0 → y1 = y2 ∧ m1 = m2) ∧
    ParseMonthYear "01-2024" = some (Date 2024 1 1 0 0 0 0) ∧
    ParseMonthYear "12-2024" = some (Date 2024 12 1 0 0 0 0) ∧
    (∀ r : reqCreate, ParseMonthYear r.StartDate = none →
      reqToSubscription r = .error "invalid start_date format, expected MM-YYYY") ∧
    (∀ r : reqCreate, ParseMonthYear r.StartDate ≠ none → r.EndDate ≠ "" →
      ParseMonthYear r.EndDate = none →
      reqToSubscription r = .error "invalid end_date format, expected MM-YYYY") ∧
    (∀ (r : reqCreate) (sub : Subscription), reqToSubscription r = .ok sub →
      ParseMonthYear r.StartDate = some sub.StartDate ∧
      (r.EndDate ≠ "" → ParseMonthYear r.EndDate = sub.EndDate ∧ sub.EndDate ≠ none)) ∧
    (∀ r : reqCost, r.StartDate ≠ "" → ParseMonthYear r.StartDate = none →
      reqToSubscriptionParams r = .error "invalid start_date format, expected MM-YYYY") ∧
    (∀ r : reqCost, (r.StartDate = "" ∨ ParseMonthYear r.StartDate ≠ none) → r.EndDate ≠ "" →
      ParseMonthYear r.EndDate = none →
      reqToSubscriptionParams r = .error "invalid end_date format, expected MM-YYYY") ∧
    (∀ (r : reqCost) (params : SubscriptionParams), reqToSubscriptionParams r = .ok params →
      (r.StartDate ≠ "" → ParseMonthYear r.StartDate = some params.StartDate) ∧
      (r.EndDate ≠ "" → ParseMonthYear r.EndDate = some params.EndDate)) := by
  refine ⟨?_, ?_, Date_first_of_month, Date_first_of_month_inj, by decide, by decide,
    ?_, ?_, ?_, ?_, ?_, ?_⟩
  · intro s
    obtain ⟨l⟩ := s
    rw [ParseMonthYear_mk]
    constructor
    · rintro ⟨t, ht⟩
      rcases l with _ | ⟨m1, _ | ⟨m2, _ | ⟨sep, _ | ⟨y1, _ | ⟨y2, _ | ⟨y3, _ | ⟨y4, _ | ⟨y5, tl⟩⟩⟩⟩⟩⟩⟩⟩ <;>
        simp only [reduceCtorEq] at ht
      split_ifs at ht with hc
      obtain ⟨h1, h2, rfl, h3, h4, h5, h6, h7, h8⟩ := hc
      exact ⟨m1, m2, y1, y2, y3, y4, rfl, h1, h2, h3, h4, h5, h6, h7, h8⟩
    · rintro ⟨m1, m2, y1, y2, y3, y4, hs, h1, h2, h3, h4, h5, h6, h7, h8⟩
      injection hs with hl
      subst hl
      simp only [h1, h2, h3, h4, h5, h6, h7, h8, and_self, if_true]
      exact ⟨_, rfl⟩
  · intro m1 m2 y1 y2 y3 y4 h1 h2 h3 h4 h5 h6 h7 h8
    rw [ParseMonthYear_mk]
    simp only [h1, h2, h3, h4, h5, h6, h7, h8, and_self, if_true]
  · intro r h
    simp [reqToSubscription, h]
  · intro r hs hne he
    cases hs2 : ParseMonthYear r.StartDate with
    | none => exact absurd hs2 hs
    | some start => simp [reqToSubscription, hs2, hne, he]
  · intro r sub h
    unfold reqToSubscription at h
    cases hs : ParseMonthYear r.StartDate with
    | none => simp [hs] at h
    | some start =>
      by_cases hne : r.EndDate = ""
      · simp [hs, hne] at h
        subst h
        simp [hne]
      · cases he : ParseMonthYear r.EndDate with
        | none => simp [hs, hne, he] at h
        | some parsedEnd =>
          cases hb : parsedEnd.Before start with
          | true => simp [hs, hne, he, hb] at h
          | false =>
            simp [hs, hne, he, hb] at h
            subst h
            simp
  · intro r hne h
    simp [reqToSubscriptionParams, hne, h]
  · intro r hs hne he
    rcases hs with hs | hs
    · simp [reqToSubscriptionParams, hs, hne, he]
    · cases hs2 : ParseMonthYear r.StartDate with
      | none => exact absurd hs2 hs
      | some start =>
        by_cases h0 : r.StartDate = "" <;> simp [reqToSubscriptionParams, hs2, hne, he, h0]
  · intro r params h
    unfold reqToSubscriptionParams at h
    by_cases hs0 : r.StartDate = "" <;> by_cases he0 : r.EndDate = "" <;>
      cases hs : ParseMonthYear r.StartDate <;> cases he : ParseMonthYear r.EndDate <;>
      simp [hs0, he0, hs, he] at h <;> subst h <;> simp [hs0, he0]

/-- An instance of C4: "01-2024" has the accepted shape and so parses. -/
theorem C4_month_year_format_witness : ∃ t, ParseMonthYear "01-2024" = some t :=
  (C4_month_year_format.1 "01-2024").2
    ⟨'0', '1', '2', '0', '2', '4', by decide, by decide, by decide, by decide, by decide,
      by decide, by decide, by decide, by decide⟩

end MonthYearFormat

/-! ### Listing: page and limit -/

section PageLimit

open GoTime Models Handler

theorem Atoi_empty : Strconv.Atoi "" = none := by decide

theorem Atoi_range_aux (neg : Bool) (body : List Char) (v : Int)
    (h : (if body.length < 1 then none
      else
        match Strconv.digitsValue body 0 with
        | none => none
        | some n =>
          let v : Int := if neg then -(n : Int) else (n : Int)
          if v < -(2 ^ 63) || v > 2 ^ 63 - 1 then none else some v) = some v) :
    Repository.isInt64 v := by
  by_cases h1 : body.length < 1
  · rw [if_pos h1] at h
    exact absurd h (by simp)
  rw [if_neg h1] at h
  cases hd : Strconv.digitsValue body 0 with
  | none => simp [hd] at h
  | some n =>
    simp only [hd] at h
    generalize (if neg = true then -(n : Int) else (n : Int)) = w at h
    by_cases h2 : (decide (w < -(2 ^ 63)) || decide (w > 2 ^ 63 - 1)) = true
    · rw [if_pos h2] at h
      exact absurd h (by simp)
    · rw [if_neg h2] at h
      simp only [Option.some.injEq] at h
      simp only [Bool.or_eq_true, decide_eq_true_eq, not_or, not_lt] at h2
      rw [← h]
      exact ⟨h2.1, h2.2⟩

/-- Every number `strconv.Atoi` returns is a Go `int`. -/
theorem Atoi_isInt64 (s : String) (v : Int) (h : Strconv.Atoi s = some v) :
    Repository.isInt64 v :=
  Atoi_range_aux _ _ v h

/-- The page `getSubscriptions` passes on: the parsed number when it is at
least 1, else the default 1, whatever the limit string is. -/
theorem parsePageLimit_page (pageStr limitStr : String) :
    (parsePageLimit pageStr limitStr).1 =
      match Strconv.Atoi pageStr with
      | some p => if 1 ≤ p then p else 1
      | none => 1 := by
  unfold parsePageLimit
  by_cases h : pageStr = ""
  · subst h
    simp [Atoi_empty]
  · simp only [ne_eq, h, not_false_eq_true, if_true]
    cases Strconv.Atoi pageStr with
    | none => rfl
    | some p =>
      simp only [gt_iff_lt]
      by_cases hp : 0 < p
      · rw [if_pos hp, if_pos (by omega)]
      · rw [if_neg hp, if_neg (by omega)]

/-- The limit `getSubscriptions` passes on: the parsed number when it is
between 1 and 100, else the default 10, whatever the page string is. -/
theorem parsePageLimit_limit (pageStr limitStr : String) :
    (parsePageLimit pageStr limitStr).2 =
      match Strconv.Atoi limitStr with
      | some l => if 1 ≤ l ∧ l ≤ 100 then l else 10
      | none => 10 := by
  unfold parsePageLimit
  by_cases h : limitStr = ""
  · subst h
    simp [Atoi_empty]
  · simp only [ne_eq, h, not_false_eq_true, if_true]
    cases Strconv.Atoi limitStr with
    | none => rfl
    | some l =>
      simp only [gt_iff_lt, Bool.and_eq_true, decide_eq_true_eq]
      by_cases hl : 0 < l ∧ l ≤ 100
      · rw [if_pos hl, if_pos ⟨by omega, hl.2⟩]
      · rw [if_neg hl, if_neg (by omega)]

/-- C5: once the user_id path parameter is non-empty and a UUID, whatever the
page and limit strings are, `getSubscriptions` calls the service's `Get`
exactly once and answers with what the service returned (200, or 500 when the
service failed), never with 400. The page passed on is `p` when `strconv.Atoi`
reads the page string as `p >= 1` and 1 otherwise; the limit is `l` when
`strconv.Atoi` reads the limit string as `1 <= l <= 100` and 10 otherwise; so
`Page >= 1` and `1 <= Limit <= 100`. -/
theorem C5_getSubscriptions_page_limit (services : Services)
    (uuidParse : String → Option UUID) (userIDStr pageStr limitStr : String) (userID : UUID)
    (hne : userIDStr ≠ "") (hid : uuidParse userIDStr = some userID) :
    ∃ params : SubscriptionParams,
      (getSubscriptions services uuidParse userIDStr pageStr limitStr).calls = [.Get params] ∧
      params.UserID = some userID ∧
      params.Page = (match Strconv.Atoi pageStr with
        | some p => if 1 ≤ p then p else 1
        | none => 1) ∧
      params.Limit = (match Strconv.Atoi limitStr with
        | some l => if 1 ≤ l ∧ l ≤ 100 then l else 10
        | none => 10) ∧
      1 ≤ params.Page ∧ 1 ≤ params.Limit ∧ params.Limit ≤ 100 ∧
      (∀ subs, services.Get params = .ok subs →
        (getSubscriptions services uuidParse userIDStr pageStr limitStr).status = 200 ∧
        (getSubscriptions services uuidParse userIDStr pageStr limitStr).body
          = .subscriptions subs) ∧
      (∀ e, services.Get params = .error e →
        (getSubscriptions services uuidParse userIDStr pageStr limitStr).status = 500) ∧
      (getSubscriptions services uuidParse userIDStr pageStr limitStr).status ≠ 400 := by
  refine ⟨{ Page := (parsePageLimit pageStr limitStr).1,
            Limit := (parsePageLimit pageStr limitStr).2,
            UserID := some userID, ServiceName := "",
            StartDate := Time.zero, EndDate := Time.zero }, ?_, rfl,
          parsePageLimit_page pageStr limitStr, parsePageLimit_limit pageStr limitStr,
          ?_, ?_, ?_, ?_, ?_, ?_⟩
  · simp only [getSubscriptions, hne, hid, if_false]
    split <;> rfl
  · simp only [parsePageLimit_page]
    split
    · split_ifs <;> omega
    · omega
  · simp only [parsePageLimit_limit]
    split
    · split_ifs <;> omega
    · omega
  · simp only [parsePageLimit_limit]
    split
    · split_ifs <;> omega
    · omega
  · intro subs h
    simp [getSubscriptions, hne, hid, h]
  · intro e h
    simp [getSubscriptions, hne, hid, h]
  · simp only [getSubscriptions, hne, hid, if_false]
    split <;> simp

/-- An instance of C5: the route with page "0" and limit "500" reaches the
service with page 1 and limit 10. -/
theorem C5_getSubscriptions_page_limit_witness :
    ∃ params : SubscriptionParams,
      (getSubscriptions
        { Create := fun _ => .ok ⟨1⟩, Get := fun _ => .ok [], Delete := fun _ => .ok (),
          Update := fun _ _ => .ok (), GetCost := fun _ => .ok 0 }
        (fun _ => some ⟨7⟩) "u" "0" "500").calls = [.Get params] ∧
      params.Page = 1 ∧ params.Limit = 10 := by
  obtain ⟨params, h1, _, h2, h3, _⟩ := C5_getSubscriptions_page_limit
    { Create := fun _ => .ok ⟨1⟩, Get := fun _ => .ok [], Delete := fun _ => .ok (),
      Update := fun _ _ => .ok (), GetCost := fun _ => .ok 0 }
    (fun _ => some ⟨7⟩) "u" "0" "500" ⟨7⟩ (by decide) rfl
  exact ⟨params, h1, h2, h3⟩

end PageLimit

/-! ### The SQL text -/

section SqlText

open GoTime Models Squirrel Repository

theorem digitChar_ne_question (k : Nat) (h : k < 10) : Nat.digitChar k ≠ '?' := by
  interval_cases k <;> decide

theorem toDigitsCore_no_question (fuel : Nat) :
    ∀ (n : Nat) (ds : List Char), (∀ c ∈ ds, c ≠ '?') →
      ∀ c ∈ Nat.toDigitsCore 10 fuel n ds, c ≠ '?' := by
  induction fuel with
  | zero => intro n ds h; simpa [Nat.toDigitsCore] using h
  | succ f ih =>
    intro n ds h
    simp only [Nat.toDigitsCore]
    have hds : ∀ c ∈ Nat.digitChar (n % 10) :: ds, c ≠ '?' := by
      intro c hc
      rcases List.mem_cons.1 hc with rfl | hc
      · exact digitChar_ne_question _ (Nat.mod_lt _ (by decide))
      · exact h c hc
    split_ifs
    · exact hds
    · exact ih _ _ hds

/-- The decimal text of a number has no question mark. -/
theorem formatUint_no_question (n : Nat) : ∀ c ∈ (formatUint n).toList, c ≠ '?' := by
  simp only [formatUint, Nat.repr, Nat.toDigits, List.asString, String.toList]
  exact toDigitsCore_no_question _ _ _ (by simp)

theorem replacePositionalPlaceholders_cons (c : Char) (l : List Char) (i : Nat)
    (hc : c ≠ '?') :
    replacePositionalPlaceholders (c :: l) i = c :: replacePositionalPlaceholders l i := by
  cases l with
  | nil => simp [replacePositionalPlaceholders, hc]
  | cons d rest => simp [replacePositionalPlaceholders, hc]

/-- Text without a question mark passes through the placeholder numbering
unchanged. -/
theorem replacePositionalPlaceholders_id (l : List Char) (i : Nat)
    (h : ∀ c ∈ l, c ≠ '?') : replacePositionalPlaceholders l i = l := by
  induction l with
  | nil => simp [replacePositionalPlaceholders]
  | cons c l ih =>
    rw [replacePositionalPlaceholders_cons c l i (h c (List.mem_cons_self _ _)),
      ih (fun d hd => h d (List.mem_cons_of_mem _ hd))]

/-- Text without a question mark also passes unchanged when it follows text
that has placeholders. -/
theorem replacePositionalPlaceholders_append (l1 : List Char) (i : Nat) (l2 : List Char)
    (h : ∀ c ∈ l2, c ≠ '?') :
    replacePositionalPlaceholders (l1 ++ l2) i = replacePositionalPlaceholders l1 i ++ l2 := by
  induction l1, i using replacePositionalPlaceholders.induct with
  | case1 x => simp [replacePositionalPlaceholders, replacePositionalPlaceholders_id l2 x h]
  | case2 i =>
    cases l2 with
    | nil => simp
    | cons d rest =>
      have hd : d ≠ '?' := h d (List.mem_cons_self _ _)
      simp [replacePositionalPlaceholders, hd, replacePositionalPlaceholders_id (d :: rest) _ h]
  | case3 c i hc =>
    simp [replacePositionalPlaceholders, hc, replacePositionalPlaceholders_cons c l2 i hc,
      replacePositionalPlaceholders_id l2 i h]
  | case4 rest i ih => simp [replacePositionalPlaceholders, ih]
  | case5 d rest i hd ih =>
    simp only [List.cons_append] at ih ⊢
    simp [replacePositionalPlaceholders, hd, ih]
  | case6 c d rest i hc ih =>
    simp only [List.cons_append] at ih ⊢
    simp [replacePositionalPlaceholders, hc, ih]

end SqlText

section ListQuery

open GoTime Models Squirrel Repository

/-- Numbering the placeholders of `pre ++ tail` leaves a `tail` without
question mark as it is. -/
theorem ReplacePlaceholders_append (pre tail : String)
    (h : ∀ c ∈ tail.toList, c ≠ '?') :
    PlaceholderFormat.Dollar.ReplacePlaceholders (pre ++ tail)
      = PlaceholderFormat.Dollar.ReplacePlaceholders pre ++ tail := by
  have h2 : ∀ c ∈ tail.data, c ≠ '?' := h
  simp only [PlaceholderFormat.ReplacePlaceholders, String.toList, String.data_append]
  rw [replacePositionalPlaceholders_append _ _ _ h2]
  rfl

theorem limit_text_no_question (n : Nat) :
    ∀ c ∈ (" LIMIT " ++ formatUint n).toList, c ≠ '?' := by
  intro c hc
  simp only [String.toList, String.data_append, List.mem_append] at hc
  rcases hc with hc | hc
  · revert c; decide
  · exact formatUint_no_question n c hc

theorem offset_text_no_question (n : Nat) :
    ∀ c ∈ (" OFFSET " ++ formatUint n).toList, c ≠ '?' := by
  intro c hc
  simp only [String.toList, String.data_append, List.mem_append] at hc
  rcases hc with hc | hc
  · revert c; decide
  · exact formatUint_no_question n c hc

/-- The builder `Get` ends with, field by field. -/
theorem getQuery_eq (params : SubscriptionParams) :
    getQuery params =
      { PlaceholderFormat := .Dollar,
        Columns := ["id", "service_name", "price", "user_id", "start_date", "end_date"],
        From := some "subscription",
        WhereParts := (match params.UserID with
          | some userID => [Sqlizer.Eq "user_id" (.uuid userID)]
          | none => []),
        Limit := if 0 < params.Limit then some (toUint64 params.Limit) else none,
        Offset := if 0 < params.Page ∧ 0 < params.Limit then
            some (toUint64 (getOffset params)) else none } := by
  unfold getQuery
  cases params.UserID <;> by_cases hl : 0 < params.Limit <;> by_cases hp : 0 < params.Page <;>
    simp [Select, SelectBuilder.from_, SelectBuilder.Where, SelectBuilder.setLimit,
      SelectBuilder.setOffset, SelectBuilder.setPlaceholderFormat, SubscriptionTable, hl, hp]

end ListQuery

section ListQuery2

set_option maxRecDepth 10000

open GoTime Models Squirrel Repository

theorem select_list_text :
    PlaceholderFormat.Dollar.ReplacePlaceholders
      ("SELECT " ++ ", ".intercalate
        ["id", "service_name", "price", "user_id", "start_date", "end_date"]
        ++ " FROM " ++ "subscription")
      = "SELECT id, service_name, price, user_id, start_date, end_date FROM subscription" := by
  rfl

theorem select_list_where_text :
    PlaceholderFormat.Dollar.ReplacePlaceholders
      ("SELECT " ++ ", ".intercalate
        ["id", "service_name", "price", "user_id", "start_date", "end_date"]
        ++ " FROM " ++ "subscription" ++ " WHERE " ++ ("user_id" ++ " = ?"))
      = "SELECT id, service_name, price, user_id, start_date, end_date FROM subscription"
        ++ " WHERE user_id = $1" := by
  rfl


/-- The LIMIT and OFFSET clauses `toSqlRaw` appends, as one text. -/
theorem limit_offset_no_question (lim off : Option Nat) :
    ∀ c ∈ ((match lim with
        | some n => " LIMIT " ++ formatUint n
        | none => "") ++
      (match off with
        | some n => " OFFSET " ++ formatUint n
        | none => "")).toList, c ≠ '?' := by
  intro c hc
  simp only [String.toList, String.data_append, List.mem_append] at hc
  rcases hc with hc | hc
  · cases lim with
    | none => simp at hc
    | some n => exact limit_text_no_question n c hc
  · cases off with
    | none => simp at hc
    | some n => exact offset_text_no_question n c hc

/-- `ToSql` of a builder whose text before LIMIT/OFFSET is `pre`: the clauses
are appended after the numbered text of `pre`. -/
theorem ReplacePlaceholders_limit_offset (pre : String) (lim off : Option Nat) :
    PlaceholderFormat.Dollar.ReplacePlaceholders
      (match off with
        | some n => (match lim with
            | some n => pre ++ " LIMIT " ++ formatUint n
            | none => pre) ++ " OFFSET " ++ formatUint n
        | none => (match lim with
            | some n => pre ++ " LIMIT " ++ formatUint n
            | none => pre))
      = PlaceholderFormat.Dollar.ReplacePlaceholders pre ++
        ((match lim with
          | some n => " LIMIT " ++ formatUint n
          | none => "") ++
        (match off with
          | some n => " OFFSET " ++ formatUint n
          | none => "")) := by
  rw [← ReplacePlaceholders_append pre _ (limit_offset_no_question lim off)]
  cases lim <;> cases off <;> simp [String.append_assoc]

/-- The SQL text and the arguments `Get` sends to the store. -/
theorem getQuery_ToSql (params : SubscriptionParams) :
    (getQuery params).ToSql = .ok
      ("SELECT id, service_name, price, user_id, start_date, end_date FROM subscription"
        ++ (match params.UserID with
            | some _ => " WHERE user_id = $1"
            | none => "")
        ++ ((if 0 < params.Limit then " LIMIT " ++ formatUint (toUint64 params.Limit) else "")
        ++ (if 0 < params.Page ∧ 0 < params.Limit then
              " OFFSET " ++ formatUint (toUint64 (getOffset params)) else "")),
       match params.UserID with
       | some userID => [.uuid userID]
       | none => []) := by
  rw [getQuery_eq]
  have key := fun pre => ReplacePlaceholders_limit_offset pre
    (if 0 < params.Limit then some (toUint64 params.Limit) else none)
    (if 0 < params.Page ∧ 0 < params.Limit then some (toUint64 (getOffset params)) else none)
  cases params.UserID with
  | none =>
    have k := key ("SELECT " ++ ", ".intercalate
        ["id", "service_name", "price", "user_id", "start_date", "end_date"]
        ++ " FROM " ++ "subscription")
    rw [select_list_text] at k
    simp only [SelectBuilder.ToSql, SelectBuilder.toSqlRaw, List.length_cons, List.length_nil,
      appendToSql]
    by_cases hl : 0 < params.Limit <;> by_cases hp : 0 < params.Page <;>
      simp [hl, hp] at k ⊢ <;> simp [k]
  | some userID =>
    have k := key ("SELECT " ++ ", ".intercalate
        ["id", "service_name", "price", "user_id", "start_date", "end_date"]
        ++ " FROM " ++ "subscription" ++ " WHERE " ++ ("user_id" ++ " = ?"))
    rw [select_list_where_text] at k
    simp only [SelectBuilder.ToSql, SelectBuilder.toSqlRaw, List.length_cons, List.length_nil,
      appendToSql, Sqlizer.ToSql]
    by_cases hl : 0 < params.Limit <;> by_cases hp : 0 < params.Page <;>
      simp [hl, hp] at k ⊢ <;> simp [k]

end ListQuery2

section ListPage

open GoTime Models Squirrel Repository

set_option maxRecDepth 10000

/-- The WHERE part of `Get` selects the rows of the user. -/
theorem holds_user_id (u : UUID) (r : Subscription) :
    holds (.Eq "user_id" (.uuid u)) r = decide (r.UserID = u) := by
  simp [holds, column]

/-- `Get` never fails over a store that answers: it returns the rows the
store selects for its query. -/
theorem Get_eq_Query (db : DB) (params : SubscriptionParams) :
    Get db params = .ok (db.Query (getQuery params)) := by
  simp only [Get, getQuery_ToSql]

/-- Without overflow the offset of `Get` is the product `(Page - 1) * Limit`. -/
theorem getOffset_eq_product (params : SubscriptionParams) (hp : 0 < params.Page)
    (hp2 : isInt64 params.Page) (hl : 0 < params.Limit)
    (hfit : (params.Page - 1) * params.Limit ≤ 2 ^ 63 - 1) :
    getOffset params = (params.Page - 1) * params.Limit ∧
    ((toUint64 (getOffset params) : Nat) : Int) = (params.Page - 1) * params.Limit := by
  unfold isInt64 at hp2
  have h0 : 0 ≤ (params.Page - 1) * params.Limit :=
    Int.mul_nonneg (by omega) (by omega)
  have e1 : wrapInt64 (params.Page - 1) = params.Page - 1 := by
    unfold wrapInt64; omega
  have e2 : getOffset params = (params.Page - 1) * params.Limit := by
    unfold getOffset
    rw [e1]
    generalize (params.Page - 1) * params.Limit = x at h0 hfit
    unfold wrapInt64; omega
  refine ⟨e2, ?_⟩
  rw [e2]
  generalize (params.Page - 1) * params.Limit = x at h0 hfit
  unfold toUint64; omega

/-- Pagination of `Get` away from overflow: for a user with `N` rows, a page
`P >= 1` and a limit `L >= 1` whose product `(P - 1) * L` fits a Go `int`,
`Get` returns `min(L, max(0, N - (P - 1) * L))` rows, all of that user. -/
theorem Get_page_length (db : DB) (params : SubscriptionParams) (u : UUID)
    (hu : params.UserID = some u) (hp : 1 ≤ params.Page) (hp2 : isInt64 params.Page)
    (hl : 1 ≤ params.Limit) (hl2 : isInt64 params.Limit)
    (hfit : (params.Page - 1) * params.Limit ≤ 2 ^ 63 - 1) :
    ∃ rows, Get db params = .ok rows ∧
      (rows.length : Int) = min params.Limit
        (max 0 (((db.rows.filter (fun r => r.UserID = u)).length : Int)
          - (params.Page - 1) * params.Limit)) ∧
      ∀ r ∈ rows, r.UserID = u := by
  refine ⟨_, Get_eq_Query db params, ?_, ?_⟩
  · have ho := (getOffset_eq_product params (by omega) hp2 (by omega) hfit).2
    have hlim : ((toUint64 params.Limit : Nat) : Int) = params.Limit := by
      unfold isInt64 at hl2
      unfold toUint64; omega
    have hl' : 0 < params.Limit := by omega
    have hp' : 0 < params.Page := by omega
    simp only [DB.Query, getQuery_eq, hu, hl', hp', and_self, if_true, List.all_cons,
      List.all_nil, Bool.and_true, holds_user_id, List.length_take, List.length_drop]
    generalize (db.rows.filter (fun r => decide (r.UserID = u))).length = n
    generalize toUint64 (getOffset params) = o at ho
    generalize toUint64 params.Limit = l at hlim
    generalize (params.Page - 1) * params.Limit = x at ho
    omega
  · intro r hr
    have hl' : 0 < params.Limit := by omega
    have hp' : 0 < params.Page := by omega
    simp only [DB.Query, getQuery_eq, hu, hl', hp', and_self, if_true, List.all_cons,
      List.all_nil, Bool.and_true, holds_user_id] at hr
    have h1 := List.mem_of_mem_drop (List.mem_of_mem_take hr)
    simpa using (List.mem_filter.1 h1).2

end ListPage

/-! ### Listing: LIMIT and OFFSET -/

section Pagination

open GoTime Models Handler Squirrel Repository

set_option maxRecDepth 10000

/-- C6 (failing input): the route GET /subscription/:user_id/4611686018427387905/4
makes the handler pass page 2^62 + 1 and limit 4; both are positive Go ints.
The product `(Page - 1) * Limit` is 2^64, but `Get` computes it in 64-bit
arithmetic, where it wraps to 0, and puts OFFSET 0 into the query. -/
theorem C6_offset_wraps_to_zero :
    parsePageLimit "4611686018427387905" "4" = (4611686018427387905, 4) ∧
    isInt64 4611686018427387905 ∧
    ((4611686018427387905 : Int) - 1) * 4 = 18446744073709551616 ∧
    getOffset { Page := 4611686018427387905, Limit := 4, UserID := some ⟨7⟩,
                ServiceName := "", StartDate := Time.zero, EndDate := Time.zero } = 0 ∧
    (getQuery { Page := 4611686018427387905, Limit := 4, UserID := some ⟨7⟩,
                ServiceName := "", StartDate := Time.zero, EndDate := Time.zero }).Offset
      = some 0 ∧
    (getQuery { Page := 4611686018427387905, Limit := 4, UserID := some ⟨7⟩,
                ServiceName := "", StartDate := Time.zero, EndDate := Time.zero }).ToSql
      = .ok ("SELECT id, service_name, price, user_id, start_date, end_date FROM subscription WHERE user_id = $1 LIMIT 4 OFFSET 0",
             [.uuid ⟨7⟩]) := by
  refine ⟨by decide, by decide, by decide, by decide, by decide, by rfl⟩

/-- C7 (counterexample): with page 0 and limit 10 the query of `Get` carries
a LIMIT clause (and no OFFSET), although the page is not positive. -/
theorem C7_limit_without_positive_page :
    ((0 : Int) ≤ 0 ∨ (10 : Int) ≤ 0) ∧
    (getQuery { Page := 0, Limit := 10, UserID := none, ServiceName := "",
                StartDate := Time.zero, EndDate := Time.zero }).Limit = some 10 ∧
    (getQuery { Page := 0, Limit := 10, UserID := none, ServiceName := "",
                StartDate := Time.zero, EndDate := Time.zero }).Offset = none ∧
    (getQuery { Page := 0, Limit := 10, UserID := none, ServiceName := "",
                StartDate := Time.zero, EndDate := Time.zero }).ToSql
      = .ok ("SELECT id, service_name, price, user_id, start_date, end_date FROM subscription LIMIT 10",
             []) := by
  refine ⟨by decide, by decide, by decide, by rfl⟩

/-- C7 (amended): the query of `Get` carries a LIMIT clause exactly when
`Limit > 0`, whatever the page is, and an OFFSET clause exactly when `Page > 0`
and `Limit > 0`. So it carries neither for `Limit <= 0`, both for `Page > 0`
and `Limit > 0`, and a LIMIT without OFFSET for `Page <= 0 < Limit`. The SQL
text is the SELECT, the user filter when a user is given, then these clauses. -/
theorem C7_limit_and_offset_clauses (params : SubscriptionParams) :
    ((getQuery params).Limit
      = if 0 < params.Limit then some (toUint64 params.Limit) else none) ∧
    ((getQuery params).Offset
      = if 0 < params.Page ∧ 0 < params.Limit then some (toUint64 (getOffset params))
        else none) ∧
    (((getQuery params).Limit ≠ none) ↔ 0 < params.Limit) ∧
    (((getQuery params).Offset ≠ none) ↔ (0 < params.Page ∧ 0 < params.Limit)) ∧
    (getQuery params).ToSql = .ok
      ("SELECT id, service_name, price, user_id, start_date, end_date FROM subscription"
        ++ (match params.UserID with
            | some _ => " WHERE user_id = $1"
            | none => "")
        ++ ((if 0 < params.Limit then " LIMIT " ++ formatUint (toUint64 params.Limit) else "")
        ++ (if 0 < params.Page ∧ 0 < params.Limit then
              " OFFSET " ++ formatUint (toUint64 (getOffset params)) else "")),
       match params.UserID with
       | some userID => [.uuid userID]
       | none => []) := by
  refine ⟨?_, ?_, ?_, ?_, getQuery_ToSql params⟩
  · rw [getQuery_eq]
  · rw [getQuery_eq]
  · rw [getQuery_eq]
    by_cases h : 0 < params.Limit <;> simp [h]
  · rw [getQuery_eq]
    by_cases h : 0 < params.Page ∧ 0 < params.Limit
    · simp [h]
    · simp only [h, if_false, ne_eq, not_true_eq_false]

/-- C8 (failing input): the store holds one row of user 7; page 2^62 + 1 with
limit 4 asks for rows far beyond it, so `min(L, max(0, N - (P - 1) * L))` is 0.
`Get` skips `OFFSET 0` rows instead, because the product wrapped around, and
returns the row. -/
theorem C8_page_beyond_end_returns_rows :
    Get ⟨[{ ID := ⟨1⟩, ServiceName := "tv", Price := 100, UserID := ⟨7⟩,
            StartDate := ⟨63839664000, 0⟩, EndDate := none }]⟩
        { Page := 4611686018427387905, Limit := 4, UserID := some ⟨7⟩,
          ServiceName := "", StartDate := Time.zero, EndDate := Time.zero }
      = .ok [{ ID := ⟨1⟩, ServiceName := "tv", Price := 100, UserID := ⟨7⟩,
               StartDate := ⟨63839664000, 0⟩, EndDate := none }] ∧
    min (4 : Int) (max 0 ((1 : Int) - (4611686018427387905 - 1) * 4)) = 0 := by
  refine ⟨by rfl, by decide⟩

end Pagination

/-! ### Cost: filters -/

section CostQuery

open GoTime Models Handler Squirrel Repository

set_option maxRecDepth 10000

/-- The WHERE parts `GetCost` collects: one per supplied filter, in the order
start, end, user, service. -/
theorem getCostQuery_eq (params : SubscriptionParams) :
    getCostQuery params =
      { PlaceholderFormat := .Dollar,
        Columns := ["COALESCE(SUM(price), 0)"],
        From := some "subscription",
        WhereParts :=
          (if params.StartDate.IsZero then []
            else [Sqlizer.GtOrEq "start_date" (.time params.StartDate)]) ++
          (if params.EndDate.IsZero then []
            else [Sqlizer.LtOrEq "end_date" (.time params.EndDate)]) ++
          (match params.UserID with
            | some userID => [Sqlizer.Eq "user_id" (.uuid userID)]
            | none => []) ++
          (if params.ServiceName = "" then []
            else [Sqlizer.Eq "service_name" (.text params.ServiceName)]),
        Limit := none,
        Offset := none } := by
  unfold getCostQuery
  cases h1 : params.StartDate.IsZero <;> cases h2 : params.EndDate.IsZero <;>
    cases params.UserID <;> by_cases h4 : params.ServiceName = "" <;>
    simp [Select, SelectBuilder.from_, SelectBuilder.Where,
      SelectBuilder.setPlaceholderFormat, SubscriptionTable, h4]

/-- The SQL text and the arguments `GetCost` sends to the store. -/
theorem getCostQuery_ToSql (params : SubscriptionParams) :
    (getCostQuery params).ToSql = .ok
      ("SELECT COALESCE(SUM(price), 0) FROM subscription" ++
        (if ((if params.StartDate.IsZero then [] else ["start_date >="]) ++
             (if params.EndDate.IsZero then [] else ["end_date <="]) ++
             (if params.UserID = none then [] else ["user_id ="]) ++
             (if params.ServiceName = "" then [] else ["service_name ="])) = []
         then ""
         else " WHERE " ++ " AND ".intercalate
          (List.zipWith (fun (c : String) (k : Nat) => c ++ " $" ++ formatUint k)
            ((if params.StartDate.IsZero then [] else ["start_date >="]) ++
             (if params.EndDate.IsZero then [] else ["end_date <="]) ++
             (if params.UserID = none then [] else ["user_id ="]) ++
             (if params.ServiceName = "" then [] else ["service_name ="]))
            (List.range' 1 4))),
       (if params.StartDate.IsZero then [] else [Arg.time params.StartDate]) ++
       (if params.EndDate.IsZero then [] else [Arg.time params.EndDate]) ++
       (match params.UserID with
        | some userID => [Arg.uuid userID]
        | none => []) ++
       (if params.ServiceName = "" then [] else [Arg.text params.ServiceName])) := by
  rw [getCostQuery_eq]
  cases h1 : params.StartDate.IsZero <;> cases h2 : params.EndDate.IsZero <;>
    cases h3 : params.UserID <;> by_cases h4 : params.ServiceName = "" <;>
    simp only [h4, if_true, if_false, Bool.false_eq_true, reduceCtorEq, List.nil_append,
      List.append_nil, List.cons_append] <;> rfl

end CostQuery

section CostFilters

open GoTime Models Handler Squirrel Repository

set_option maxRecDepth 10000

/-- C9: the query of `GetCost` has the condition `start_date >= X` exactly
when `StartDate` is not the zero time, `end_date <= Y` exactly when `EndDate`
is not the zero time, `user_id = U` exactly when `UserID` is not nil and
`service_name = S` exactly when `ServiceName` is not empty, with the supplied
values and nothing else; the SQL text joins them with AND after WHERE, each
with its own placeholder `$1`, `$2`, ... in the order start, end, user,
service, and the bound arguments are the supplied values in that order; with
nothing supplied the text has no WHERE clause and there are no arguments. -/
theorem C9_getCost_filters (params : SubscriptionParams) :
    ((∃ v, Sqlizer.GtOrEq "start_date" v ∈ (getCostQuery params).WhereParts)
      ↔ params.StartDate.IsZero = false) ∧
    ((∃ v, Sqlizer.LtOrEq "end_date" v ∈ (getCostQuery params).WhereParts)
      ↔ params.EndDate.IsZero = false) ∧
    ((∃ v, Sqlizer.Eq "user_id" v ∈ (getCostQuery params).WhereParts)
      ↔ params.UserID ≠ none) ∧
    ((∃ v, Sqlizer.Eq "service_name" v ∈ (getCostQuery params).WhereParts)
      ↔ params.ServiceName ≠ "") ∧
    (∀ w ∈ (getCostQuery params).WhereParts,
      w = .GtOrEq "start_date" (.time params.StartDate) ∨
      w = .LtOrEq "end_date" (.time params.EndDate) ∨
      (∃ u, params.UserID = some u ∧ w = .Eq "user_id" (.uuid u)) ∨
      w = .Eq "service_name" (.text params.ServiceName)) ∧
    (getCostQuery params).ToSql = .ok
      ("SELECT COALESCE(SUM(price), 0) FROM subscription" ++
        (if ((if params.StartDate.IsZero then [] else ["start_date >="]) ++
             (if params.EndDate.IsZero then [] else ["end_date <="]) ++
             (if params.UserID = none then [] else ["user_id ="]) ++
             (if params.ServiceName = "" then [] else ["service_name ="])) = []
         then ""
         else " WHERE " ++ " AND ".intercalate
          (List.zipWith (fun (c : String) (k : Nat) => c ++ " $" ++ formatUint k)
            ((if params.StartDate.IsZero then [] else ["start_date >="]) ++
             (if params.EndDate.IsZero then [] else ["end_date <="]) ++
             (if params.UserID = none then [] else ["user_id ="]) ++
             (if params.ServiceName = "" then [] else ["service_name ="]))
            (List.range' 1 4))),
       (if params.StartDate.IsZero then [] else [Arg.time params.StartDate]) ++
       (if params.EndDate.IsZero then [] else [Arg.time params.EndDate]) ++
       (match params.UserID with
        | some userID => [Arg.uuid userID]
        | none => []) ++
       (if params.ServiceName = "" then [] else [Arg.text params.ServiceName])) ∧
    (params.StartDate.IsZero = true → params.EndDate.IsZero = true → params.UserID = none →
      params.ServiceName = "" →
      (getCostQuery params).ToSql
        = .ok ("SELECT COALESCE(SUM(price), 0) FROM subscription", [])) := by
  refine ⟨?_, ?_, ?_, ?_, ?_, getCostQuery_ToSql params, ?_⟩
  · rw [getCostQuery_eq]
    cases h1 : params.StartDate.IsZero <;> cases h2 : params.EndDate.IsZero <;>
      cases h3 : params.UserID <;> by_cases h4 : params.ServiceName = "" <;> simp [h4]
  · rw [getCostQuery_eq]
    cases h1 : params.StartDate.IsZero <;> cases h2 : params.EndDate.IsZero <;>
      cases h3 : params.UserID <;> by_cases h4 : params.ServiceName = "" <;> simp [h4]
  · rw [getCostQuery_eq]
    cases h1 : params.StartDate.IsZero <;> cases h2 : params.EndDate.IsZero <;>
      cases h3 : params.UserID <;> by_cases h4 : params.ServiceName = "" <;> simp [h4]
  · rw [getCostQuery_eq]
    cases h1 : params.StartDate.IsZero <;> cases h2 : params.EndDate.IsZero <;>
      cases h3 : params.UserID <;> by_cases h4 : params.ServiceName = "" <;> simp [h4]
  · rw [getCostQuery_eq]
    cases h1 : params.StartDate.IsZero <;> cases h2 : params.EndDate.IsZero <;>
      cases h3 : params.UserID <;> by_cases h4 : params.ServiceName = "" <;> simp [h4]
  · intro h1 h2 h3 h4
    rw [getCostQuery_ToSql]
    simp only [h1, h2, h3, h4, if_true, List.append_nil]
    rfl

/-- An instance of C9: a cost query for user 7 and service "tv" with both dates
has four conditions, numbered `$1` to `$4`. -/
theorem C9_getCost_filters_witness :
    (getCostQuery { Page := 0, Limit := 0, UserID := some ⟨7⟩, ServiceName := "tv",
                    StartDate := ⟨63839664000, 0⟩, EndDate := ⟨63868608000, 0⟩ }).ToSql
      = .ok ("SELECT COALESCE(SUM(price), 0) FROM subscription WHERE start_date >= $1 AND end_date <= $2 AND user_id = $3 AND service_name = $4",
             [.time ⟨63839664000, 0⟩, .time ⟨63868608000, 0⟩, .uuid ⟨7⟩, .text "tv"]) ∧
    (getCostQuery SubscriptionParams.zero).ToSql
      = .ok ("SELECT COALESCE(SUM(price), 0) FROM subscription", []) :=
  ⟨(C9_getCost_filters
      { Page := 0, Limit := 0, UserID := some ⟨7⟩, ServiceName := "tv",
        StartDate := ⟨63839664000, 0⟩, EndDate := ⟨63868608000, 0⟩ }).2.2.2.2.2.1.trans rfl,
   (C9_getCost_filters SubscriptionParams.zero).2.2.2.2.2.2 rfl rfl rfl rfl⟩

end CostFilters

/-! ### Cost: the sum -/

section CostSum

open GoTime Models Handler Squirrel Repository

set_option maxRecDepth 10000

/-- The WHERE parts of `GetCost` select a row exactly when it passes every
supplied filter: the user and the service name are equal to the given ones,
the start date is not before `StartDate`, and the row has an end date that is
not after `EndDate`. -/
theorem getCostQuery_holds (params : SubscriptionParams) (r : Subscription) :
    (getCostQuery params).WhereParts.all (fun w => holds w r) =
      ((params.StartDate.IsZero || !(r.StartDate.Before params.StartDate)) &&
       (params.EndDate.IsZero ||
          (match r.EndDate with
           | some e => !(params.EndDate.Before e)
           | none => false)) &&
       (match params.UserID with
        | some u => decide (r.UserID = u)
        | none => true) &&
       (decide (params.ServiceName = "") || decide (r.ServiceName = params.ServiceName))) := by
  rw [getCostQuery_eq]
  cases h1 : params.StartDate.IsZero <;> cases h2 : params.EndDate.IsZero <;>
    cases h3 : params.UserID <;> by_cases h4 : params.ServiceName = "" <;>
    cases h5 : r.EndDate <;>
    simp [h4, h5, holds, column, Arg.le, Bool.and_assoc]

/-- `GetCost` over a store that answers: the scan of the exact sum. -/
theorem GetCost_eq_scan (db : DB) (params : SubscriptionParams) :
    GetCost db params =
      match scanInt64 (db.QuerySum (getCostQuery params)) with
      | .error e => .error ("SubscriptionPostgres GetCost() ошибка выполнения запроса: " ++ e)
      | .ok cost => .ok cost := by
  simp only [GetCost, getCostQuery_ToSql]

end CostSum

section CostSumClaim

open GoTime Models Handler Squirrel Repository

set_option maxRecDepth 10000

/-- C10 (counterexample): two rows priced 2^62 each, both valid `int64`
prices, and no filter. Their sum 2^63 is no `int64`, so the scan into `cost`
fails and `GetCost` returns an error instead of the sum. -/
theorem C10_sum_beyond_int64 :
    isInt64 4611686018427387904 ∧
    ((4611686018427387904 : Int) + 4611686018427387904 = 9223372036854775808) ∧
    ¬ isInt64 9223372036854775808 ∧
    GetCost ⟨[{ ID := ⟨1⟩, ServiceName := "tv", Price := 4611686018427387904, UserID := ⟨7⟩,
                StartDate := ⟨63839664000, 0⟩, EndDate := none },
              { ID := ⟨2⟩, ServiceName := "music", Price := 4611686018427387904, UserID := ⟨7⟩,
                StartDate := ⟨63839664000, 0⟩, EndDate := none }]⟩
        SubscriptionParams.zero
      ≠ .ok 9223372036854775808 ∧
    ∃ e, GetCost ⟨[{ ID := ⟨1⟩, ServiceName := "tv", Price := 4611686018427387904,
                     UserID := ⟨7⟩, StartDate := ⟨63839664000, 0⟩, EndDate := none },
                   { ID := ⟨2⟩, ServiceName := "music", Price := 4611686018427387904,
                     UserID := ⟨7⟩, StartDate := ⟨63839664000, 0⟩, EndDate := none }]⟩
        SubscriptionParams.zero = .error e := by
  refine ⟨by decide, by decide, by decide, ?_, ?_⟩
  · rw [GetCost_eq_scan]
    simp [DB.QuerySum, getCostQuery_holds, scanInt64, isInt64, SubscriptionParams.zero,
      Time.zero, Time.IsZero]
  · rw [GetCost_eq_scan]
    simp [DB.QuerySum, getCostQuery_holds, scanInt64, isInt64, SubscriptionParams.zero,
      Time.zero, Time.IsZero]

/-- C10 (amended): over a table given as a sequence of rows, let `S` be the
sum of `price` over the rows that pass every supplied filter (user equal,
service name equal, start date not before `StartDate`, an end date not after
`EndDate`). `GetCost` returns `S` without error whenever `S` fits an `int64`,
in particular 0 when no row passes, and an error when `S` does not fit. For a
user whose rows are priced 100, 200 and 300 and no other filter it returns 600. -/
theorem C10_getCost_sum (db : DB) (params : SubscriptionParams)
    (passing : List Subscription)
    (hpassing : passing = db.rows.filter (fun r =>
        (params.StartDate.IsZero || !(r.StartDate.Before params.StartDate)) &&
        (params.EndDate.IsZero ||
          (match r.EndDate with
           | some e => !(params.EndDate.Before e)
           | none => false)) &&
        (match params.UserID with
         | some u => decide (r.UserID = u)
         | none => true) &&
        (decide (params.ServiceName = "") || decide (r.ServiceName = params.ServiceName)))) :
    (isInt64 ((passing.map (fun r => r.Price)).sum) →
      GetCost db params = .ok ((passing.map (fun r => r.Price)).sum)) ∧
    (passing = [] → GetCost db params = .ok 0) ∧
    (¬ isInt64 ((passing.map (fun r => r.Price)).sum) → ∃ e, GetCost db params = .error e) ∧
    (∀ u : UUID, params.UserID = some u → params.StartDate.IsZero = true →
      params.EndDate.IsZero = true → params.ServiceName = "" →
      (db.rows.filter (fun r => decide (r.UserID = u))).map (fun r => r.Price)
        = [100, 200, 300] →
      GetCost db params = .ok 600) := by
  have hsum : db.QuerySum (getCostQuery params) = (passing.map (fun r => r.Price)).sum := by
    simp only [DB.QuerySum, getCostQuery_holds, hpassing]
  rw [GetCost_eq_scan, hsum]
  refine ⟨?_, ?_, ?_, ?_⟩
  · intro h
    simp [scanInt64, h]
  · intro h
    rw [h]
    simp [scanInt64, isInt64]
  · intro h
    simp [scanInt64, h]
  · intro u hu h1 h2 h3 hp
    simp only [hu, h1, h2, h3, Bool.true_or, Bool.true_and, decide_True, Bool.and_true] at hpassing
    rw [hpassing, hp]
    simp [scanInt64, isInt64]

/-- An instance of C10: user 7 has rows priced 100, 200 and 300, user 8 one row
priced 50; the cost of user 7 is 600. -/
theorem C10_getCost_sum_witness :
    GetCost ⟨[{ ID := ⟨1⟩, ServiceName := "tv", Price := 100, UserID := ⟨7⟩,
                StartDate := ⟨63839664000, 0⟩, EndDate := none },
              { ID := ⟨2⟩, ServiceName := "music", Price := 200, UserID := ⟨7⟩,
                StartDate := ⟨63839664000, 0⟩, EndDate := some ⟨63868608000, 0⟩ },
              { ID := ⟨3⟩, ServiceName := "tv", Price := 50, UserID := ⟨8⟩,
                StartDate := ⟨63839664000, 0⟩, EndDate := none },
              { ID := ⟨4⟩, ServiceName := "news", Price := 300, UserID := ⟨7⟩,
                StartDate := ⟨63839664000, 0⟩, EndDate := none }]⟩
        { Page := 0, Limit := 0, UserID := some ⟨7⟩, ServiceName := "",
          StartDate := Time.zero, EndDate := Time.zero } = .ok 600 :=
  (C10_getCost_sum _ _ _ rfl).2.2.2 ⟨7⟩ rfl rfl rfl rfl (by decide)

end CostSumClaim

/-! ### Create and update: validation failures -/

section CreateUpdate

open GoTime Models Handler

/-- An error response has the given status and message, makes no service
call and leaves the store as it was. -/
theorem newErrorResponse_spec (status : Nat) (msg : String) (newID : UUID)
    (db : Repository.DB) :
    (newErrorResponse status msg).status = status ∧
    (newErrorResponse status msg).body = .error msg ∧
    (newErrorResponse status msg).calls = [] ∧
    storeAfter newID (newErrorResponse status msg) db = db := by
  simp [newErrorResponse, storeAfter]

/-- On the create/update path an end date before the start date makes
`reqToSubscription` fail. -/
theorem reqToSubscription_end_before_start (r : reqCreate) (start parsedEnd : Time)
    (hs : ParseMonthYear r.StartDate = some start) (hne : r.EndDate ≠ "")
    (he : ParseMonthYear r.EndDate = some parsedEnd) (hlt : parsedEnd.Before start = true) :
    reqToSubscription r = .error "end_date must be after start_date" := by
  simp [reqToSubscription, hs, hne, he, hlt]

/-- C11: in `createSubscription` and `updateSubscription`, when the path id
is no UUID (update), when `validateCreate` fails or when `reqToSubscription`
fails (as it does for every payload whose end date precedes its start date),
the handler answers 400 with the error message, calls neither `Create` nor
`Update` nor any other service operation, and the store is as before. -/
theorem C11_validation_failure_stops_request (services : Services)
    (uuidParse : String → Option UUID) (newID : UUID) (db : Repository.DB) :
    (∀ (r : reqCreate) (o : Outcome), o = createSubscription services (some r) →
      (validateCreate r ≠ none ∨ ∃ e, reqToSubscription r = .error e) →
      o.status = 400 ∧ o.calls = [] ∧ storeAfter newID o db = db ∧
      (∀ e, validateCreate r = some e → o.body = .error e) ∧
      (∀ e, validateCreate r = none → reqToSubscription r = .error e → o.body = .error e)) ∧
    (∀ (idStr : String) (body : Option reqCreate) (o : Outcome),
      o = updateSubscription services uuidParse idStr body → uuidParse idStr = none →
      o.status = 400 ∧ o.calls = [] ∧ storeAfter newID o db = db ∧
      o.body = .error "invalid subscription id") ∧
    (∀ (idStr : String) (r : reqCreate) (o : Outcome),
      o = updateSubscription services uuidParse idStr (some r) →
      (validateCreate r ≠ none ∨ ∃ e, reqToSubscription r = .error e) →
      o.status = 400 ∧ o.calls = [] ∧ storeAfter newID o db = db ∧
      (∀ id e, uuidParse idStr = some id → validateCreate r = some e → o.body = .error e) ∧
      (∀ id e, uuidParse idStr = some id → validateCreate r = none →
        reqToSubscription r = .error e → o.body = .error e)) ∧
    (∀ (idStr : String) (r : reqCreate) (start parsedEnd : Time),
      ParseMonthYear r.StartDate = some start → r.EndDate ≠ "" →
      ParseMonthYear r.EndDate = some parsedEnd → parsedEnd.Before start = true →
      (createSubscription services (some r)).status = 400 ∧
      (createSubscription services (some r)).calls = [] ∧
      storeAfter newID (createSubscription services (some r)) db = db ∧
      (updateSubscription services uuidParse idStr (some r)).status = 400 ∧
      (updateSubscription services uuidParse idStr (some r)).calls = [] ∧
      storeAfter newID (updateSubscription services uuidParse idStr (some r)) db = db) := by
  have create : ∀ (r : reqCreate),
      (validateCreate r ≠ none ∨ ∃ e, reqToSubscription r = .error e) →
      ∃ msg, createSubscription services (some r) = newErrorResponse 400 msg ∧
        (∀ e, validateCreate r = some e → msg = e) ∧
        (∀ e, validateCreate r = none → reqToSubscription r = .error e → msg = e) := by
    intro r h
    cases hv : validateCreate r with
    | some e => exact ⟨e, by simp [createSubscription, hv], by simp, by simp⟩
    | none =>
      rcases h with h | ⟨e, he⟩
      · exact absurd hv h
      · exact ⟨e, by simp [createSubscription, hv, he], by simp, by simp [he]⟩
  have update : ∀ (idStr : String) (r : reqCreate),
      (validateCreate r ≠ none ∨ ∃ e, reqToSubscription r = .error e) →
      ∃ msg, updateSubscription services uuidParse idStr (some r) = newErrorResponse 400 msg ∧
        (∀ id e, uuidParse idStr = some id → validateCreate r = some e → msg = e) ∧
        (∀ id e, uuidParse idStr = some id → validateCreate r = none →
          reqToSubscription r = .error e → msg = e) := by
    intro idStr r h
    cases hid : uuidParse idStr with
    | none =>
      exact ⟨"invalid subscription id", by simp [updateSubscription, hid], by simp, by simp⟩
    | some id =>
      cases hv : validateCreate r with
      | some e => exact ⟨e, by simp [updateSubscription, hid, hv], by simp, by simp⟩
      | none =>
        rcases h with h | ⟨e, he⟩
        · exact absurd hv h
        · exact ⟨e, by simp [updateSubscription, hid, hv, he], by simp, by simp [he]⟩
  refine ⟨?_, ?_, ?_, ?_⟩
  · intro r o ho h
    obtain ⟨msg, hmsg, h1, h2⟩ := create r h
    have hs := newErrorResponse_spec 400 msg newID db
    rw [ho, hmsg]
    refine ⟨hs.1, hs.2.2.1, hs.2.2.2, ?_, ?_⟩
    · intro e he; rw [hs.2.1, h1 e he]
    · intro e hv he; rw [hs.2.1, h2 e hv he]
  · intro idStr body o ho hid
    have hs := newErrorResponse_spec 400 "invalid subscription id" newID db
    have : updateSubscription services uuidParse idStr body
        = newErrorResponse 400 "invalid subscription id" := by
      simp [updateSubscription, hid]
    rw [ho, this]
    exact ⟨hs.1, hs.2.2.1, hs.2.2.2, hs.2.1⟩
  · intro idStr r o ho h
    obtain ⟨msg, hmsg, h1, h2⟩ := update idStr r h
    have hs := newErrorResponse_spec 400 msg newID db
    rw [ho, hmsg]
    refine ⟨hs.1, hs.2.2.1, hs.2.2.2, ?_, ?_⟩
    · intro id e hid he; rw [hs.2.1, h1 id e hid he]
    · intro id e hid hv he; rw [hs.2.1, h2 id e hid hv he]
  · intro idStr r start parsedEnd hs hne he hlt
    have hfail : validateCreate r ≠ none ∨ ∃ e, reqToSubscription r = .error e :=
      Or.inr ⟨_, reqToSubscription_end_before_start r start parsedEnd hs hne he hlt⟩
    obtain ⟨m1, hm1, _, _⟩ := create r hfail
    obtain ⟨m2, hm2, _, _⟩ := update idStr r hfail
    have s1 := newErrorResponse_spec 400 m1 newID db
    have s2 := newErrorResponse_spec 400 m2 newID db
    rw [hm1, hm2]
    exact ⟨s1.1, s1.2.2.1, s1.2.2.2, s2.1, s2.2.2.1, s2.2.2.2⟩

/-- An instance of C11: a payload with start_date "03-2024" and end_date
"02-2024" is answered 400 by create and by update, with no service call. -/
theorem C11_validation_failure_stops_request_witness :
    (createSubscription
      { Create := fun _ => .ok ⟨1⟩, Get := fun _ => .ok [], Delete := fun _ => .ok (),
        Update := fun _ _ => .ok (), GetCost := fun _ => .ok 0 }
      (some { ServiceName := "tv", Price := 5, UserID := ⟨1⟩, StartDate := "03-2024",
              EndDate := "02-2024" })).status = 400 ∧
    (createSubscription
      { Create := fun _ => .ok ⟨1⟩, Get := fun _ => .ok [], Delete := fun _ => .ok (),
        Update := fun _ _ => .ok (), GetCost := fun _ => .ok 0 }
      (some { ServiceName := "tv", Price := 5, UserID := ⟨1⟩, StartDate := "03-2024",
              EndDate := "02-2024" })).calls = [] :=
  have h := (C11_validation_failure_stops_request
    { Create := fun _ => .ok ⟨1⟩, Get := fun _ => .ok [], Delete := fun _ => .ok (),
      Update := fun _ _ => .ok (), GetCost := fun _ => .ok 0 }
    (fun _ => some ⟨9⟩) ⟨2⟩ ⟨[]⟩).2.2.2 "x"
    { ServiceName := "tv", Price := 5, UserID := ⟨1⟩, StartDate := "03-2024",
      EndDate := "02-2024" }
    ⟨63844848000, 0⟩ ⟨63842342400, 0⟩ (by decide) (by decide) (by decide) (by decide)
  ⟨h.1, h.2.1⟩

end CreateUpdate

/-! ### The route of the cost operation -/

section Routes

open Handler

set_option maxRecDepth 10000

/-- C12 (failing input): the request POST /subscription/cost. `InitRoutes`
registers `getCost` once, under GET /subscription/cost; under POST it has only
/subscription/, so no route accepts the request and `getCost` does not run,
although the `@Router` annotation of `getCost` names the method post. -/
theorem C12_cost_route_is_get :
    InitRoutes.filter (fun r => r.Handler = .getCost)
      = [{ Method := "GET", Path := "/subscription/cost", Handler := .getCost }] ∧
    InitRoutes.filter (fun r => r.Method = "POST")
      = [{ Method := "POST", Path := "/subscription/", Handler := .createSubscription }] ∧
    candidates InitRoutes "POST" "/subscription/cost" = [] ∧
    ({ Method := "GET", Path := "/subscription/cost", Handler := .getCost } : RouteInfo)
      ∈ candidates InitRoutes "GET" "/subscription/cost" ∧
    getCostRouterAnnotation = ("/subscription/cost", "post") := by
  refine ⟨by decide, by decide, by decide, by decide, by decide⟩

end Routes

/-! ### Delete and update by identifier -/

section DeleteUpdate

open GoTime Models Squirrel Repository

set_option maxRecDepth 10000

/-- The WHERE part on the id selects the rows with that id. -/
theorem holds_id (id : UUID) (r : Subscription) :
    holds (.Eq "id" (.uuid id)) r = decide (r.ID = id) := by
  simp [holds, column]

/-- The statement of `Delete`, field by field. -/
theorem deleteQuery_eq (id : UUID) :
    deleteQuery id =
      { PlaceholderFormat := .Dollar, From := "subscription",
        WhereParts := [Sqlizer.Eq "id" (.uuid id)] } := by
  rfl

/-- The SQL text and the argument `Delete` sends to the store. -/
theorem deleteQuery_ToSql (id : UUID) :
    (deleteQuery id).ToSql = .ok ("DELETE FROM subscription WHERE id = $1", [.uuid id]) := by
  rfl

/-- The statement of `Update`, field by field. -/
theorem updateQuery_eq (id : UUID) (subscription : Subscription) :
    updateQuery id subscription =
      { PlaceholderFormat := .Dollar, Table := "subscription",
        SetClauses :=
          [{ column := "service_name", value := .text subscription.ServiceName },
           { column := "price", value := .int subscription.Price },
           { column := "user_id", value := .uuid subscription.UserID },
           { column := "start_date", value := .time subscription.StartDate },
           { column := "end_date",
             value := (match subscription.EndDate with
               | some e => Arg.time e
               | none => Arg.null) }],
        WhereParts := [Sqlizer.Eq "id" (.uuid id)] } := by
  unfold updateQuery
  cases subscription.EndDate <;> rfl

/-- The SQL text and the arguments `Update` sends to the store. -/
theorem updateQuery_ToSql (id : UUID) (subscription : Subscription) :
    (updateQuery id subscription).ToSql = .ok
      ("UPDATE subscription SET service_name = $1, price = $2, user_id = $3, start_date = $4, end_date = $5 WHERE id = $6",
       [.text subscription.ServiceName, .int subscription.Price, .uuid subscription.UserID,
        .time subscription.StartDate,
        (match subscription.EndDate with
          | some e => Arg.time e
          | none => Arg.null),
        .uuid id]) := by
  rw [updateQuery_eq]
  cases subscription.EndDate <;> rfl

/-- The five assignments of `Update` replace every field of a row but its id. -/
theorem assignAll_updateQuery (id : UUID) (subscription r : Subscription) :
    assignAll (updateQuery id subscription).SetClauses r =
      some { ID := r.ID, ServiceName := subscription.ServiceName, Price := subscription.Price,
             UserID := subscription.UserID, StartDate := subscription.StartDate,
             EndDate := subscription.EndDate } := by
  rw [updateQuery_eq]
  cases h : subscription.EndDate <;> simp [assignAll, assign]

/-- The rows after the UPDATE of `Update`. -/
theorem updateRows_updateQuery (id : UUID) (subscription : Subscription)
    (rows : List Subscription) :
    updateRows (updateQuery id subscription) rows =
      some (rows.map (fun r =>
        if r.ID = id then
          { ID := r.ID, ServiceName := subscription.ServiceName, Price := subscription.Price,
            UserID := subscription.UserID, StartDate := subscription.StartDate,
            EndDate := subscription.EndDate }
        else r)) := by
  induction rows with
  | nil => rfl
  | cons r rest ih =>
    have hw : (updateQuery id subscription).WhereParts = [Sqlizer.Eq "id" (.uuid id)] := by
      rw [updateQuery_eq]
    simp only [updateRows, ih, hw, List.all_cons, List.all_nil, Bool.and_true, holds_id,
      assignAll_updateQuery, decide_eq_true_eq, List.map_cons]
    by_cases h : r.ID = id <;> simp [h]

/-- `Update`, evaluated: "not found" exactly when no row has the id; the
store afterwards has the rows with that id replaced. -/
theorem Update_eq (db : DB) (id : UUID) (subscription : Subscription) :
    Repository.Update db id subscription =
      (if (db.rows.filter (fun r => decide (r.ID = id))).length = 0 then
         some ("SubscriptionPostgres Update() запись с ID " ++ id.String ++ " не найдена")
       else none,
       { rows := db.rows.map (fun r =>
          if r.ID = id then
            { ID := r.ID, ServiceName := subscription.ServiceName,
              Price := subscription.Price, UserID := subscription.UserID,
              StartDate := subscription.StartDate, EndDate := subscription.EndDate }
          else r) }) := by
  have hw : (updateQuery id subscription).WhereParts = [Sqlizer.Eq "id" (.uuid id)] := by
    rw [updateQuery_eq]
  simp only [Repository.Update, updateQuery_ToSql, DB.ExecUpdate, updateRows_updateQuery, hw,
    List.all_cons, List.all_nil, Bool.and_true, holds_id]
  split_ifs <;> rfl

/-- `Delete`, evaluated: "not found" exactly when no row has the id; the
store afterwards is without the rows with that id. -/
theorem Delete_eq (db : DB) (id : UUID) :
    Repository.Delete db id =
      (if (db.rows.filter (fun r => decide (r.ID = id))).length = 0 then
         some ("SubscriptionPostgres Delete() запись с ID " ++ id.String ++ " не найдена")
       else none,
       { rows := db.rows.filter (fun r => !decide (r.ID = id)) }) := by
  simp only [Repository.Delete, deleteQuery_ToSql, DB.ExecDelete, deleteQuery_eq,
    List.all_cons, List.all_nil, Bool.and_true, holds_id]
  split_ifs <;> rfl

/-- No row has the id exactly when the statement affects zero rows. -/
theorem affected_zero_iff (rows : List Subscription) (id : UUID) :
    (rows.filter (fun r => decide (r.ID = id))).length = 0 ↔ ∀ r ∈ rows, r.ID ≠ id := by
  rw [List.length_eq_zero, List.filter_eq_nil_iff]
  simp

end DeleteUpdate

section DeleteUpdateClaims

open GoTime Models Squirrel Repository

set_option maxRecDepth 10000

/-- C13: the DELETE and the UPDATE affect as many rows as have the given id.
When no stored row has the id (zero rows affected), `Delete` and `Update`
return the "not found" error ("запись с ID ... не найдена") and the stored
rows are as before; when at least one row is affected they return nil. -/
theorem C13_delete_update_not_found (db : DB) (id : UUID) (subscription : Subscription) :
    ((db.ExecDelete (deleteQuery id)).1
        = (db.rows.filter (fun r => decide (r.ID = id))).length) ∧
    (∃ db1, db.ExecUpdate (updateQuery id subscription)
        = .ok ((db.rows.filter (fun r => decide (r.ID = id))).length, db1)) ∧
    ((db.rows.filter (fun r => decide (r.ID = id))).length = 0 ↔ ∀ r ∈ db.rows, r.ID ≠ id) ∧
    ((∀ r ∈ db.rows, r.ID ≠ id) →
      Repository.Delete db id =
        (some ("SubscriptionPostgres Delete() запись с ID " ++ id.String ++ " не найдена"),
         db) ∧
      Repository.Update db id subscription =
        (some ("SubscriptionPostgres Update() запись с ID " ++ id.String ++ " не найдена"),
         db)) ∧
    ((∃ r ∈ db.rows, r.ID = id) →
      (Repository.Delete db id).1 = none ∧ (Repository.Update db id subscription).1 = none) := by
  have hw : (updateQuery id subscription).WhereParts = [Sqlizer.Eq "id" (.uuid id)] := by
    rw [updateQuery_eq]
  refine ⟨?_, ?_, affected_zero_iff db.rows id, ?_, ?_⟩
  · simp only [DB.ExecDelete, deleteQuery_eq, List.all_cons, List.all_nil, Bool.and_true,
      holds_id]
  · simp only [DB.ExecUpdate, updateRows_updateQuery, hw, List.all_cons, List.all_nil,
      Bool.and_true, holds_id]
    exact ⟨_, rfl⟩
  · intro h
    have h0 := (affected_zero_iff db.rows id).2 h
    rw [Delete_eq, Update_eq, if_pos h0, if_pos h0]
    have hf : db.rows.filter (fun r => !decide (r.ID = id)) = db.rows := by
      rw [List.filter_eq_self]
      intro r hr
      simp [h r hr]
    have hm : db.rows.map (fun r =>
        if r.ID = id then
          ({ ID := r.ID, ServiceName := subscription.ServiceName,
             Price := subscription.Price, UserID := subscription.UserID,
             StartDate := subscription.StartDate, EndDate := subscription.EndDate }
            : Subscription)
        else r) = db.rows := by
      conv_rhs => rw [← List.map_id db.rows]
      apply List.map_congr_left
      intro r hr
      simp [h r hr]
    rw [hf, hm]
    exact ⟨rfl, rfl⟩
  · intro h
    have h0 : ¬ (db.rows.filter (fun r => decide (r.ID = id))).length = 0 := by
      rw [affected_zero_iff]
      push_neg
      exact h
    rw [Delete_eq, Update_eq, if_neg h0, if_neg h0]
    exact ⟨rfl, rfl⟩

/-- An instance of C13: deleting and updating id 3 in a store that holds the
ids 1 and 2 fails with "not found" and keeps both rows. -/
theorem C13_delete_update_not_found_witness :
    (Repository.Delete
      ⟨[{ ID := ⟨1⟩, ServiceName := "tv", Price := 100, UserID := ⟨7⟩,
          StartDate := ⟨63839664000, 0⟩, EndDate := none },
        { ID := ⟨2⟩, ServiceName := "music", Price := 200, UserID := ⟨7⟩,
          StartDate := ⟨63839664000, 0⟩, EndDate := none }]⟩ ⟨3⟩).2.rows.length = 2 ∧
    (Repository.Delete
      ⟨[{ ID := ⟨1⟩, ServiceName := "tv", Price := 100, UserID := ⟨7⟩,
          StartDate := ⟨63839664000, 0⟩, EndDate := none },
        { ID := ⟨2⟩, ServiceName := "music", Price := 200, UserID := ⟨7⟩,
          StartDate := ⟨63839664000, 0⟩, EndDate := none }]⟩ ⟨3⟩).1
      = some "SubscriptionPostgres Delete() запись с ID 00000000-0000-0000-0000-000000000003 не найдена" :=
  have h := ((C13_delete_update_not_found
    ⟨[{ ID := ⟨1⟩, ServiceName := "tv", Price := 100, UserID := ⟨7⟩,
        StartDate := ⟨63839664000, 0⟩, EndDate := none },
      { ID := ⟨2⟩, ServiceName := "music", Price := 200, UserID := ⟨7⟩,
        StartDate := ⟨63839664000, 0⟩, EndDate := none }]⟩ ⟨3⟩
    { ID := ⟨0⟩, ServiceName := "news", Price := 1, UserID := ⟨7⟩,
      StartDate := ⟨63839664000, 0⟩, EndDate := none }).2.2.2.1 (by decide)).1
  ⟨by rw [h]; rfl, by rw [h]; rfl⟩

/-- C14: the statement of `Update` assigns the five columns service_name,
price, user_id, start_date and end_date, in this order, to the values of the
payload, end_date to NULL when the payload has no end date; its only
condition is `id = <identifier>`; no assignment names the id column. In the
store every row with that id takes the five values and keeps its id, and every
other row is as before. -/
theorem C14_update_statement (id : UUID) (subscription : Subscription) :
    (updateQuery id subscription).Table = "subscription" ∧
    (updateQuery id subscription).SetClauses =
      [{ column := "service_name", value := .text subscription.ServiceName },
       { column := "price", value := .int subscription.Price },
       { column := "user_id", value := .uuid subscription.UserID },
       { column := "start_date", value := .time subscription.StartDate },
       { column := "end_date",
         value := (match subscription.EndDate with
           | some e => Arg.time e
           | none => Arg.null) }] ∧
    (∀ c ∈ (updateQuery id subscription).SetClauses, c.column ≠ "id") ∧
    (subscription.EndDate = none →
      ({ column := "end_date", value := .null } : setClause)
        ∈ (updateQuery id subscription).SetClauses) ∧
    (updateQuery id subscription).WhereParts = [Sqlizer.Eq "id" (.uuid id)] ∧
    (updateQuery id subscription).ToSql = .ok
      ("UPDATE subscription SET service_name = $1, price = $2, user_id = $3, start_date = $4, end_date = $5 WHERE id = $6",
       [.text subscription.ServiceName, .int subscription.Price, .uuid subscription.UserID,
        .time subscription.StartDate,
        (match subscription.EndDate with
          | some e => Arg.time e
          | none => Arg.null),
        .uuid id]) ∧
    (∀ db : DB, (Repository.Update db id subscription).2.rows =
      db.rows.map (fun r =>
        if r.ID = id then
          { ID := r.ID, ServiceName := subscription.ServiceName,
            Price := subscription.Price, UserID := subscription.UserID,
            StartDate := subscription.StartDate, EndDate := subscription.EndDate }
        else r)) ∧
    (∀ db : DB, ((Repository.Update db id subscription).2.rows.map (fun r => r.ID))
      = db.rows.map (fun r => r.ID)) := by
  refine ⟨?_, ?_, ?_, ?_, ?_, updateQuery_ToSql id subscription, ?_, ?_⟩
  · rw [updateQuery_eq]
  · rw [updateQuery_eq]
  · rw [updateQuery_eq]
    intro c hc
    simp only [List.mem_cons, List.mem_singleton, List.not_mem_nil, or_false] at hc
    rcases hc with h | h | h | h | h <;> subst h <;> simp
  · intro h
    rw [updateQuery_eq, h]
    simp
  · rw [updateQuery_eq]
  · intro db
    rw [Update_eq]
  · intro db
    rw [Update_eq]
    simp only [List.map_map]
    apply List.map_congr_left
    intro r hr
    simp only [Function.comp]
    split_ifs <;> rfl

/-- An instance of C14: an update without end date for id 2 binds NULL to
`end_date`. -/
theorem C14_update_statement_witness :
    ({ column := "end_date", value := .null } : setClause)
      ∈ (updateQuery ⟨2⟩ { ID := ⟨0⟩, ServiceName := "news", Price := 1, UserID := ⟨7⟩,
                            StartDate := ⟨63839664000, 0⟩, EndDate := none }).SetClauses :=
  (C14_update_statement ⟨2⟩ { ID := ⟨0⟩, ServiceName := "news", Price := 1, UserID := ⟨7⟩,
                              StartDate := ⟨63839664000, 0⟩, EndDate := none }).2.2.2.1 rfl

end DeleteUpdateClaims

/-! ### The service layer -/

section ServiceLayer

open Models GoErrors Service

/-- C15: for every repository (any state, any answers) and every input, each
operation of `SubscriptionService` makes the one call of the same name to the
repository with the arguments it got: the state afterwards is the state after
that call, and a repository that records its calls has recorded exactly that
call. When the repository returns a nil error, the operation returns the
repository's result and a nil error. When the repository returns an error, the
operation returns the zero result (nil UUID, nil slice, 0) and an error that
wraps the repository's error, with the message "SubscriptionService <Op>() "
followed by the repository's message. -/
theorem C15_service_pass_through {σ : Type} (repository : Service.Repository σ) (st : σ)
    (answers : Service.Repository Unit) (log : List RepositoryCall)
    (subscription : Subscription) (params : SubscriptionParams) (id : UUID) :
    -- one call, arguments unchanged
    ((newSubscriptionService repository).Create subscription st).2
      = (repository.Create subscription st).2 ∧
    ((newSubscriptionService repository).Get params st).2 = (repository.Get params st).2 ∧
    ((newSubscriptionService repository).Delete id st).2 = (repository.Delete id st).2 ∧
    ((newSubscriptionService repository).Update id subscription st).2
      = (repository.Update id subscription st).2 ∧
    ((newSubscriptionService repository).GetCost params st).2
      = (repository.GetCost params st).2 ∧
    ((newSubscriptionService (recording answers)).Create subscription log).2
      = log ++ [.Create subscription] ∧
    ((newSubscriptionService (recording answers)).Get params log).2 = log ++ [.Get params] ∧
    ((newSubscriptionService (recording answers)).Delete id log).2 = log ++ [.Delete id] ∧
    ((newSubscriptionService (recording answers)).Update id subscription log).2
      = log ++ [.Update id subscription] ∧
    ((newSubscriptionService (recording answers)).GetCost params log).2
      = log ++ [.GetCost params] ∧
    -- success: the result as it is, nil error
    ((repository.Create subscription st).1.2 = none →
      ((newSubscriptionService repository).Create subscription st).1
        = ((repository.Create subscription st).1.1, none)) ∧
    ((repository.Get params st).1.2 = none →
      ((newSubscriptionService repository).Get params st).1
        = ((repository.Get params st).1.1, none)) ∧
    ((repository.Delete id st).1 = none →
      ((newSubscriptionService repository).Delete id st).1 = none) ∧
    ((repository.Update id subscription st).1 = none →
      ((newSubscriptionService repository).Update id subscription st).1 = none) ∧
    ((repository.GetCost params st).1.2 = none →
      ((newSubscriptionService repository).GetCost params st).1
        = ((repository.GetCost params st).1.1, none)) ∧
    -- failure: the zero result and the wrapped error
    (∀ err, (repository.Create subscription st).1.2 = some err →
      ∃ e, ((newSubscriptionService repository).Create subscription st).1
          = (UUID.Nil, some e) ∧
        e.Unwrap = some err ∧ e.Error = "SubscriptionService Create() " ++ err.Error) ∧
    (∀ err, (repository.Get params st).1.2 = some err →
      ∃ e, ((newSubscriptionService repository).Get params st).1 = (none, some e) ∧
        e.Unwrap = some err ∧ e.Error = "SubscriptionService Get() " ++ err.Error) ∧
    (∀ err, (repository.Delete id st).1 = some err →
      ∃ e, ((newSubscriptionService repository).Delete id st).1 = some e ∧
        e.Unwrap = some err ∧ e.Error = "SubscriptionService Delete() " ++ err.Error) ∧
    (∀ err, (repository.Update id subscription st).1 = some err →
      ∃ e, ((newSubscriptionService repository).Update id subscription st).1 = some e ∧
        e.Unwrap = some err ∧ e.Error = "SubscriptionService Update() " ++ err.Error) ∧
    (∀ err, (repository.GetCost params st).1.2 = some err →
      ∃ e, ((newSubscriptionService repository).GetCost params st).1 = (0, some e) ∧
        e.Unwrap = some err ∧ e.Error = "SubscriptionService GetCost() " ++ err.Error) := by
  refine ⟨?_, ?_, ?_, ?_, ?_, ?_, ?_, ?_, ?_, ?_, ?_, ?_, ?_, ?_, ?_, ?_, ?_, ?_, ?_, ?_⟩
  · simp only [newSubscriptionService, SubscriptionService.Create]; split <;> rfl
  · simp only [newSubscriptionService, SubscriptionService.Get]; split <;> rfl
  · simp only [newSubscriptionService, SubscriptionService.Delete]; split <;> rfl
  · simp only [newSubscriptionService, SubscriptionService.Update]; split <;> rfl
  · simp only [newSubscriptionService, SubscriptionService.GetCost]; split <;> rfl
  · simp only [newSubscriptionService, SubscriptionService.Create]; split <;> rfl
  · simp only [newSubscriptionService, SubscriptionService.Get]; split <;> rfl
  · simp only [newSubscriptionService, SubscriptionService.Delete]; split <;> rfl
  · simp only [newSubscriptionService, SubscriptionService.Update]; split <;> rfl
  · simp only [newSubscriptionService, SubscriptionService.GetCost]; split <;> rfl
  · intro h; simp only [newSubscriptionService, SubscriptionService.Create, h]
  · intro h; simp only [newSubscriptionService, SubscriptionService.Get, h]
  · intro h; simp only [newSubscriptionService, SubscriptionService.Delete, h]
  · intro h; simp only [newSubscriptionService, SubscriptionService.Update, h]
  · intro h; simp only [newSubscriptionService, SubscriptionService.GetCost, h]
  · intro err h
    exact ⟨.wrapped "SubscriptionService Create() " err,
      by simp only [newSubscriptionService, SubscriptionService.Create, h], rfl, rfl⟩
  · intro err h
    exact ⟨.wrapped "SubscriptionService Get() " err,
      by simp only [newSubscriptionService, SubscriptionService.Get, h], rfl, rfl⟩
  · intro err h
    exact ⟨.wrapped "SubscriptionService Delete() " err,
      by simp only [newSubscriptionService, SubscriptionService.Delete, h], rfl, rfl⟩
  · intro err h
    exact ⟨.wrapped "SubscriptionService Update() " err,
      by simp only [newSubscriptionService, SubscriptionService.Update, h], rfl, rfl⟩
  · intro err h
    exact ⟨.wrapped "SubscriptionService GetCost() " err,
      by simp only [newSubscriptionService, SubscriptionService.GetCost, h], rfl, rfl⟩

/-- An instance of C15: over a repository whose `Delete` fails with "boom", the
service's `Delete` returns the error "SubscriptionService Delete() boom" that
wraps it. -/
theorem C15_service_pass_through_witness :
    ∃ e, ((newSubscriptionService
        ({ Create := fun _ st => ((⟨1⟩, none), st), Get := fun _ st => ((none, none), st),
           Delete := fun _ st => (some (.new "boom"), st),
           Update := fun _ _ st => (none, st),
           GetCost := fun _ st => ((0, none), st) } : Service.Repository Unit)).Delete
        ⟨5⟩ ()).1 = some e ∧
      e.Unwrap = some (.new "boom") ∧
      e.Error = "SubscriptionService Delete() " ++ (GoError.new "boom").Error :=
  (C15_service_pass_through
    ({ Create := fun _ st => ((⟨1⟩, none), st), Get := fun _ st => ((none, none), st),
       Delete := fun _ st => (some (.new "boom"), st),
       Update := fun _ _ st => (none, st),
       GetCost := fun _ st => ((0, none), st) } : Service.Repository Unit) ()
    { Create := fun _ st => ((⟨1⟩, none), st), Get := fun _ st => ((none, none), st),
      Delete := fun _ st => (some (.new "boom"), st),
      Update := fun _ _ st => (none, st),
      GetCost := fun _ st => ((0, none), st) } []
    { ID := ⟨0⟩, ServiceName := "news", Price := 1, UserID := ⟨7⟩,
      StartDate := ⟨63839664000, 0⟩, EndDate := none }
    Models.SubscriptionParams.zero ⟨5⟩).2.2.2.2.2.2.2.2.2.2.2.2.2.2.2.2.2.1
    (.new "boom") rfl

end ServiceLayer
